import Mathlib

/-!
Verification development for the Azure NetApp Files cross-region replication
(CRR) sample script (src/example.py).  The script drives a cloud provider
through a sequence of create / wait / authorize / delete calls.  We embed the
script shallowly: every provider interaction becomes an `Event` recorded in a
trace, and the behaviour of the provider is an `Env` that decides the outcome
of each call.  The script itself becomes a function in a writer-plus-except
monad `M`; temporal claims about the script are theorems about the produced
trace, quantified over all environments.
-/

/-- HTTP-style provider error, mirroring msrestazure CloudError
(fields status_code and message). -/
structure CloudError where
  status_code : Nat
  message : String
deriving DecidableEq

/-- Errors that can abort the run: a provider CloudError, or a readiness
timeout raised by the waiter (spec section 7, case c).  Python except
CloudError clauses catch only the first kind. -/
inductive Err where
  | cloud (e : CloudError)
  | timeout (resourceId : String)
deriving DecidableEq

/-- A provider resource as far as the script observes it: its hierarchical
resource id and its name (the script reads .id and .name). -/
structure Resource where
  id : String
  name : String
deriving DecidableEq

/-- Body of accounts.create_or_update, mirroring NetAppAccount(location, tags). -/
structure NetAppAccount where
  location : String
  tags : Option (List (String × String))
deriving DecidableEq

/-- Body of pools.create_or_update, mirroring CapacityPool(location,
service_level, size). -/
structure CapacityPool where
  location : String
  service_level : String
  size : Nat
deriving DecidableEq

/-- Mirrors ExportPolicyRule in create_volume. -/
structure ExportPolicyRule where
  allowed_clients : String
  cifs : Bool
  nfsv3 : Bool
  nfsv41 : Bool
  rule_index : Nat
  unix_read_only : Bool
  unix_read_write : Bool
deriving DecidableEq

/-- Mirrors VolumePropertiesExportPolicy(rules). -/
structure VolumePropertiesExportPolicy where
  rules : List ExportPolicyRule
deriving DecidableEq

/-- Mirrors ReplicationObject(endpoint_type, remote_volume_region,
remote_volume_resource_id, replication_schedule). -/
structure ReplicationObject where
  endpoint_type : String
  remote_volume_region : String
  remote_volume_resource_id : String
  replication_schedule : String
deriving DecidableEq

/-- Mirrors VolumePropertiesDataProtection(replication). -/
structure VolumePropertiesDataProtection where
  replication : ReplicationObject
deriving DecidableEq

/-- Body of volumes.create_or_update, mirroring the Volume(...) construction
in create_volume. -/
structure Volume where
  usage_threshold : Nat
  creation_token : String
  location : String
  service_level : String
  subnet_id : String
  protocol_types : List String
  export_policy : VolumePropertiesExportPolicy
  data_protection : Option VolumePropertiesDataProtection
deriving DecidableEq

/-- The provider calls the script can make.  Waiter calls are included
because the script observably invokes them (they poll the provider). -/
inductive ApiCall where
  | accountsCreateOrUpdate (body : NetAppAccount) (rg acct : String)
  | poolsCreateOrUpdate (body : CapacityPool) (rg acct pool : String)
  | volumesCreateOrUpdate (body : Volume) (rg acct pool vol : String)
  | waitForAnfResource (resourceId : String) (replication : Bool)
  | waitForNoAnfResource (resourceId : String) (replication : Bool)
  | authorizeReplication (rg acct pool vol remoteVolumeResourceId : String)
  | replicationStatus (rg acct pool vol : String)
  | deleteReplication (rg acct pool vol : String)
  | volumesDelete (rg acct pool vol : String)
  | poolsDelete (rg acct pool : String)
  | accountsDelete (rg acct : String)
deriving DecidableEq

instance {ε α : Type} [DecidableEq ε] [DecidableEq α] : DecidableEq (Except ε α) :=
  fun x y =>
    match x, y with
    | Except.ok a, Except.ok b =>
        if h : a = b then isTrue (by rw [h]) else isFalse (by simp [h])
    | Except.error a, Except.error b =>
        if h : a = b then isTrue (by rw [h]) else isFalse (by simp [h])
    | Except.ok _, Except.error _ => isFalse (by simp)
    | Except.error _, Except.ok _ => isFalse (by simp)

/-- One observable step of the script: a console_output line, or a provider
call together with the outcome the environment gave it. -/
inductive Event where
  | log (msg : String)
  | call (c : ApiCall) (r : Except Err Resource)
deriving DecidableEq

/-- The provider environment: the subscription id handed out by
get_credentials, the api_version string, and the outcome of every call. -/
structure Env where
  subscription_id : String
  api_version : String
  respond : ApiCall → Except Err Resource

/-- The script monad: a trace of events plus an exception-or-value result.
The trace is kept even when the run aborts, so temporal claims can talk
about failing runs. -/
def M (α : Type) : Type := List Event × Except Err α

/-- Sequencing in `M`: run the first computation; on success feed its value
to the continuation and append the traces, on failure keep the prefix trace
and propagate the error. -/
def mBind (x : M α) (f : α → M β) : M β :=
  match x.2 with
  | Except.ok a => (x.1 ++ (f a).1, (f a).2)
  | Except.error e => (x.1, Except.error e)

instance : Monad M where
  pure a := ([], Except.ok a)
  bind := mBind

/-- Mirrors a Python console_output call. -/
def logMsg (s : String) : M Unit := ([Event.log s], Except.ok ())

/-- Mirrors one blocking provider call (the .result() / .wait() style calls):
the call event is recorded with the outcome the environment chose, and a
failure outcome raises. -/
def apiCall (env : Env) (c : ApiCall) : M Resource :=
  ([Event.call c (env.respond c)], env.respond c)

/-- Mirrors Python raise of a CloudError. -/
def throwCloud (e : CloudError) : M α := ([], Except.error (Err.cloud e))

/-- Mirrors a Python try/except CloudError block: only CloudErrors reach the
handler; timeouts and success pass through. -/
def mTryCloud (x : M α) (h : CloudError → M α) : M α :=
  match x.2 with
  | Except.error (Err.cloud e) => (x.1 ++ (h e).1, (h e).2)
  | _ => x

/-- Helper for the uri utilities: split a character list at every slash. -/
def splitSlashAux : List Char → List Char → List (List Char)
  | [], acc => [acc.reverse]
  | c :: rest, acc =>
      if c == '/' then acc.reverse :: splitSlashAux rest []
      else splitSlashAux rest (c :: acc)

/-- Helper for the uri utilities: the slash-separated segments of a path. -/
def path_segments (uri : String) : List String :=
  (splitSlashAux uri.data []).map (fun l => String.mk l)

/-- Helper for the uri utilities: the segment immediately following the
given marker segment in a split path. -/
def segment_after (marker : String) : List String → String
  | [] => ""
  | [_] => ""
  | a :: b :: rest => if a = marker then b else segment_after marker (b :: rest)

/-- Modelled from the spec: resource_uri_utils.get_resource_group, a pure
function extracting the resourceGroup substring from a hierarchical
resource-path string (spec section 6, URI utility). -/
def get_resource_group (uri : String) : String :=
  segment_after "resourceGroups" (path_segments uri)

/-- Modelled from the spec: resource_uri_utils.get_anf_account, extracting
the account name substring from a hierarchical resource path. -/
def get_anf_account (uri : String) : String :=
  segment_after "netAppAccounts" (path_segments uri)

/-- Modelled from the spec: resource_uri_utils.get_anf_capacity_pool,
extracting the capacity pool name substring from a hierarchical resource
path. -/
def get_anf_capacity_pool (uri : String) : String :=
  segment_after "capacityPools" (path_segments uri)

/-- Modelled from the spec: resource_uri_utils.get_anf_volume, extracting
the volume name substring from a hierarchical resource path. -/
def get_anf_volume (uri : String) : String :=
  segment_after "volumes" (path_segments uri)

/-- Modelled from the spec: sample_utils.wait_for_anf_resource, the
ReadinessWaiter polling the resource (or its replication sub-resource)
until ready; observably one provider interaction that either returns or
raises (spec section 4.2). -/
def wait_for_anf_resource (env : Env) (resourceId : String) (replication : Bool) : M Resource :=
  apiCall env (ApiCall.waitForAnfResource resourceId replication)

/-- Modelled from the spec: sample_utils.wait_for_no_anf_resource, the
ReadinessWaiter polling until the resource (or its replication
sub-resource) is absent (spec section 4.2). -/
def wait_for_no_anf_resource (env : Env) (resourceId : String) (replication : Bool) : M Resource :=
  apiCall env (ApiCall.waitForNoAnfResource resourceId replication)

/-- Mirrors create_account in example.py: builds the NetAppAccount body and
issues accounts.create_or_update. -/
def create_account (env : Env) (resource_group_name anf_account_name location : String)
    (tags : Option (List (String × String))) : M Resource :=
  apiCall env (ApiCall.accountsCreateOrUpdate
    (NetAppAccount.mk location tags) resource_group_name anf_account_name)

/-- Mirrors create_capacity_pool in example.py: the body always carries
service_level "Standard". -/
def create_capacity_pool (env : Env) (resource_group_name anf_account_name
    capacity_pool_name : String) (size : Nat) (location : String)
    (tags : Option (List (String × String))) : M Resource :=
  apiCall env (ApiCall.poolsCreateOrUpdate
    (CapacityPool.mk location "Standard" size)
    resource_group_name anf_account_name capacity_pool_name)

/-- Mirrors create_volume in example.py: fixed NFSv4.1 export rule, fixed
service level "Standard", caller-supplied size and optional data_protection,
no local validation of the size. -/
def create_volume (env : Env) (resource_group_name anf_account_name
    capacity_pool_name volume_name : String) (volume_size : Nat)
    (subnet_id location : String)
    (data_protection : Option VolumePropertiesDataProtection)
    (tags : Option (List (String × String))) : M Resource :=
  let rules : List ExportPolicyRule :=
    [ExportPolicyRule.mk "0.0.0.0/0" false false true 1 false true]
  let export_policies := VolumePropertiesExportPolicy.mk rules
  let volume_body : Volume :=
    { usage_threshold := volume_size
      creation_token := volume_name
      location := location
      service_level := "Standard"
      subnet_id := subnet_id
      protocol_types := ["NFSv4.1"]
      export_policy := export_policies
      data_protection := data_protection }
  apiCall env (ApiCall.volumesCreateOrUpdate volume_body
    resource_group_name anf_account_name capacity_pool_name volume_name)

def PRIMARY_RESOURCE_GROUP_NAME : String := "[Primary Resource Group Name]"
def PRIMARY_LOCATION : String := "[Primary Location]"
def PRIMARY_VNET_NAME : String := "[Primary VNET Name]"
def PRIMARY_SUBNET_NAME : String := "[Primary Subnet Name]"
def PRIMARY_ANF_ACCOUNT_NAME : String := "[Primary ANF Account Name]"
def PRIMARY_CAPACITY_POOL_NAME : String := "[Primary ANF Capacity Pool Name]"
def PRIMARY_VOLUME_NAME : String := "[Primary ANF Volume Name]"

def SECONDARY_RESOURCE_GROUP_NAME : String := "[Secondary Resource Group Name]"
def SECONDARY_LOCATION : String := "[Secondary Location]"
def SECONDARY_VNET_NAME : String := "[Secondary VNET Name]"
def SECONDARY_SUBNET_NAME : String := "[Secondary Subnet Name]"
def SECONDARY_ANF_ACCOUNT_NAME : String := "[Secondary ANF Account Name]"
def SECONDARY_CAPACITY_POOL_NAME : String := "[Secondary ANF Capacity Pool Name]"
def SECONDARY_VOLUME_NAME : String := "[Secondary ANF Volume Name]"

/-- 4TiB, minimum capacity pool size (example.py line 38). -/
def CAPACITY_POOL_SIZE : Nat := 4398046511104

/-- 100GiB, volume minimum size (example.py line 39). -/
def VOLUME_SIZE : Nat := 107374182400

/-- Cleanup flag as shipped in example.py (line 42). -/
def CLEANUP_RESOURCES : Bool := false

/-- The six resources run_example has in scope when the cleanup block
starts. -/
structure Created where
  primary_account : Resource
  primary_capacity_pool : Resource
  primary_volume : Resource
  secondary_account : Resource
  secondary_capacity_pool : Resource
  data_replication_volume : Resource
deriving DecidableEq

/-- The try/except idiom wrapped around every creation call in run_example:
issue the call, log the success line on success; on CloudError log the
diagnostic line with the provider message and re-raise. -/
def createStep (act : M Resource) (okMsg : Resource → String)
    (errPrefix : String) : M Resource :=
  mTryCloud
    (do
      let r ← act
      logMsg (okMsg r)
      pure r)
    (fun ex => do
      logMsg (errPrefix ++ ex.message)
      throwCloud ex)

/-- Lines 176 to 320 of run_example: primary account, pool, volume, wait;
secondary account, pool, data replication volume, wait; authorize
replication; wait for the source replication to initialize. -/
def provision_phase (env : Env) : M Created := do
  logMsg ("Azure NetApp Files Python CRR SDK Sample - Sample project that creates a primary ANF Account, Capacity Pool, and an NFS v4.1 Volume. Then it creates secondary resources and a Data Replication Volume.")
  let subscription_id := env.subscription_id
  logMsg "Instantiating a new Azure NetApp Files management client..."
  logMsg ("Api Version: " ++ env.api_version)
  logMsg "Creating Primary ANF Resources..."
  logMsg "Creating Primary Account..."
  let primary_account ← createStep
    (create_account env PRIMARY_RESOURCE_GROUP_NAME PRIMARY_ANF_ACCOUNT_NAME
      PRIMARY_LOCATION none)
    (fun r => "\tAccount successfully created. Resource id: " ++ r.id)
    "An error occurred while creating Account: "
  logMsg "Creating Primary Capacity Pool..."
  let primary_capacity_pool ← createStep
    (create_capacity_pool env PRIMARY_RESOURCE_GROUP_NAME primary_account.name
      PRIMARY_CAPACITY_POOL_NAME CAPACITY_POOL_SIZE PRIMARY_LOCATION none)
    (fun r => "\tCapacity Pool successfully created. Resource id: " ++ r.id)
    "An error occurred while creating Capacity Pool: "
  logMsg "Creating Primary Volume..."
  let primary_subnet_id := "/subscriptions/" ++ subscription_id ++ "/resourceGroups/" ++
    PRIMARY_RESOURCE_GROUP_NAME ++ "/providers/Microsoft.Network/virtualNetworks/" ++
    PRIMARY_VNET_NAME ++ "/subnets/" ++ PRIMARY_SUBNET_NAME
  let primary_volume ← createStep
    (create_volume env PRIMARY_RESOURCE_GROUP_NAME primary_account.name
      (get_anf_capacity_pool primary_capacity_pool.id)
      PRIMARY_VOLUME_NAME VOLUME_SIZE primary_subnet_id PRIMARY_LOCATION none none)
    (fun r => "\tVolume successfully created. Resource id: " ++ r.id)
    "An error occurred while creating Volume: "
  logMsg ("Waiting for " ++ get_anf_volume primary_volume.id ++ " to be available...")
  let _ ← wait_for_anf_resource env primary_volume.id false
  logMsg "Creating Secondary ANF Resources..."
  logMsg "Creating Secondary Account..."
  let secondary_account ← createStep
    (create_account env SECONDARY_RESOURCE_GROUP_NAME SECONDARY_ANF_ACCOUNT_NAME
      SECONDARY_LOCATION none)
    (fun r => "\tAccount successfully created. Resource id: " ++ r.id)
    "An error occurred while creating Account: "
  logMsg "Creating Secondary Capacity Pool..."
  let secondary_capacity_pool ← createStep
    (create_capacity_pool env SECONDARY_RESOURCE_GROUP_NAME secondary_account.name
      SECONDARY_CAPACITY_POOL_NAME CAPACITY_POOL_SIZE SECONDARY_LOCATION none)
    (fun r => "\tCapacity Pool successfully created. Resource id: " ++ r.id)
    "An error occurred while creating Capacity Pool: "
  logMsg "Creating Secondary Volume..."
  let secondary_subnet_id := "/subscriptions/" ++ subscription_id ++ "/resourceGroups/" ++
    SECONDARY_RESOURCE_GROUP_NAME ++ "/providers/Microsoft.Network/virtualNetworks/" ++
    SECONDARY_VNET_NAME ++ "/subnets/" ++ SECONDARY_SUBNET_NAME
  let data_replication_volume ← createStep
    (create_volume env SECONDARY_RESOURCE_GROUP_NAME secondary_account.name
      (get_anf_capacity_pool secondary_capacity_pool.id)
      SECONDARY_VOLUME_NAME VOLUME_SIZE secondary_subnet_id SECONDARY_LOCATION
      (some (VolumePropertiesDataProtection.mk
        (ReplicationObject.mk "dst" PRIMARY_LOCATION primary_volume.id "hourly"))) none)
    (fun r => "\tVolume successfully created. Resource id: " ++ r.id)
    "An error occurred while creating Volume: "
  logMsg ("Waiting for " ++ get_anf_volume data_replication_volume.id ++ " to be available...")
  let _ ← wait_for_anf_resource env data_replication_volume.id false
  logMsg "Authorizing replication in source region..."
  let _ ← apiCall env (ApiCall.authorizeReplication
    (get_resource_group primary_account.id)
    (get_anf_account primary_account.id)
    (get_anf_capacity_pool primary_capacity_pool.id)
    (get_anf_volume primary_volume.id)
    data_replication_volume.id)
  let _ ← wait_for_anf_resource env primary_volume.id true
  pure (Created.mk primary_account primary_capacity_pool primary_volume
    secondary_account secondary_capacity_pool data_replication_volume)

/-- Lines 338 to 376 of run_example: the body of the per-volume loop in the
cleanup block, including the inner try/except with the 404 pass. -/
def delete_volume_iter (env : Env) (volume_id : String) : M Unit := do
  let resource_group := get_resource_group volume_id
  let account_name := get_anf_account volume_id
  let pool_name := get_anf_capacity_pool volume_id
  let volume_name := get_anf_volume volume_id
  mTryCloud
    (do
      let _ ← apiCall env (ApiCall.replicationStatus resource_group account_name
        pool_name volume_name)
      let _ ← apiCall env (ApiCall.deleteReplication resource_group account_name
        pool_name volume_name)
      let _ ← wait_for_no_anf_resource env volume_id true
      pure ())
    (fun e =>
      if e.status_code == 404 then pure ()
      else do
        logMsg ("An error occurred while deleting replication: " ++ e.message)
        throwCloud e)
  let _ ← apiCall env (ApiCall.volumesDelete resource_group account_name
    pool_name volume_name)
  let _ ← wait_for_no_anf_resource env volume_id false
  logMsg ("\tSuccessfully deleted Volume " ++ volume_id)

/-- Iterate a loop body over a list of resource ids, mirroring the Python
for loops in the cleanup block. -/
def forEachId (f : String → M Unit) : List String → M Unit
  | [] => pure ()
  | x :: xs => do
    f x
    forEachId f xs

/-- Lines 334 to 379 of run_example: the volume cleanup loop with its outer
try/except. -/
def delete_volumes_section (env : Env) (c : Created) : M Unit := do
  logMsg "Deleting Volumes..."
  mTryCloud
    (forEachId (delete_volume_iter env)
      [c.data_replication_volume.id, c.primary_volume.id])
    (fun ex => do
      logMsg ("An error occurred while deleting volumes: " ++ ex.message)
      throwCloud ex)

/-- Lines 386 to 398 of run_example: the body of the per-pool loop. -/
def delete_pool_iter (env : Env) (pool_id : String) : M Unit := do
  let resource_group := get_resource_group pool_id
  let account_name := get_anf_account pool_id
  let pool_name := get_anf_capacity_pool pool_id
  let _ ← apiCall env (ApiCall.poolsDelete resource_group account_name pool_name)
  let _ ← wait_for_no_anf_resource env pool_id false
  logMsg ("\tSuccessfully deleted Capacity Pool " ++ pool_id)

/-- Lines 382 to 401 of run_example: the capacity pool cleanup loop with its
try/except. -/
def delete_pools_section (env : Env) (c : Created) : M Unit := do
  logMsg "Deleting Capacity Pools..."
  mTryCloud
    (forEachId (delete_pool_iter env)
      [c.primary_capacity_pool.id, c.secondary_capacity_pool.id])
    (fun ex => do
      logMsg ("An error occurred while deleting capacity pools: " ++ ex.message)
      throwCloud ex)

/-- Lines 408 to 418 of run_example: the body of the per-account loop. -/
def delete_account_iter (env : Env) (account_id : String) : M Unit := do
  let resource_group := get_resource_group account_id
  let account_name := get_anf_account account_id
  let _ ← apiCall env (ApiCall.accountsDelete resource_group account_name)
  let _ ← wait_for_no_anf_resource env account_id false
  logMsg ("\tSuccessfully deleted Account " ++ account_id)

/-- Lines 404 to 421 of run_example: the account cleanup loop with its
try/except. -/
def delete_accounts_section (env : Env) (c : Created) : M Unit := do
  logMsg "Deleting Accounts..."
  mTryCloud
    (forEachId (delete_account_iter env)
      [c.primary_account.id, c.secondary_account.id])
    (fun ex => do
      logMsg ("An error occurred while deleting accounts: " ++ ex.message)
      throwCloud ex)

/-- Lines 328 to 421 of run_example: the cleanup block, volumes then pools
then accounts. -/
def cleanup_phase (env : Env) (c : Created) : M Unit := do
  logMsg "\tCleaning up resources"
  delete_volumes_section env c
  delete_pools_section env c
  delete_accounts_section env c

/-- Mirrors run_example in example.py, with the CLEANUP_RESOURCES global
passed in as the cleanup_resources argument so both settings of the flag can
be reasoned about. -/
def run_example (env : Env) (cleanup_resources : Bool) : M Unit := do
  let c ← provision_phase env
  if cleanup_resources then cleanup_phase env c else pure ()
  logMsg "ANF Cross-Region Replication has completed successfully"

/-- The run with the flag as shipped (cleanup disabled). -/
def run_example_default (env : Env) : M Unit := run_example env CLEANUP_RESOURCES

/-- A concrete all-success environment used for witnesses: every call
succeeds and created resources get short parseable hierarchical ids. -/
def okEnv : Env where
  subscription_id := "s"
  api_version := "v"
  respond := fun c =>
    match c with
    | ApiCall.accountsCreateOrUpdate _ rg _ =>
        if rg == PRIMARY_RESOURCE_GROUP_NAME then
          Except.ok (Resource.mk "/resourceGroups/p/netAppAccounts/pa" "pa")
        else
          Except.ok (Resource.mk "/resourceGroups/s/netAppAccounts/sa" "sa")
    | ApiCall.poolsCreateOrUpdate _ rg _ _ =>
        if rg == PRIMARY_RESOURCE_GROUP_NAME then
          Except.ok (Resource.mk "/resourceGroups/p/netAppAccounts/pa/capacityPools/pp" "pp")
        else
          Except.ok (Resource.mk "/resourceGroups/s/netAppAccounts/sa/capacityPools/sp" "sp")
    | ApiCall.volumesCreateOrUpdate _ rg _ _ _ =>
        if rg == PRIMARY_RESOURCE_GROUP_NAME then
          Except.ok
            (Resource.mk "/resourceGroups/p/netAppAccounts/pa/capacityPools/pp/volumes/pv" "pv")
        else
          Except.ok
            (Resource.mk "/resourceGroups/s/netAppAccounts/sa/capacityPools/sp/volumes/sv" "sv")
    | _ => Except.ok (Resource.mk "" "")

/-! Simp lemmas that normalize traces of the embedded script into explicit
event lists, branching on the environment responses. -/

@[simp] theorem m_bind_def (x : M α) (f : α → M β) : x >>= f = mBind x f := rfl

@[simp] theorem m_pure_def (a : α) : (pure a : M α) = ([], Except.ok a) := rfl

@[simp] theorem mBind_pair_ok (t : List Event) (a : α) (f : α → M β) :
    mBind (t, Except.ok a) f = (t ++ (f a).1, (f a).2) := rfl

@[simp] theorem mBind_pair_error (t : List Event) (e : Err) (f : α → M β) :
    mBind (t, Except.error e) f = (t, Except.error e) := rfl

@[simp] theorem mBind_logMsg (s : String) (f : Unit → M β) :
    mBind (logMsg s) f = (Event.log s :: (f ()).1, (f ()).2) := by
  simp [logMsg, mBind]

@[simp] theorem mTryCloud_pair_ok (t : List Event) (a : α) (h : CloudError → M α) :
    mTryCloud (t, Except.ok a) h = (t, Except.ok a) := rfl

@[simp] theorem mTryCloud_pair_cloud (t : List Event) (e : CloudError) (h : CloudError → M α) :
    mTryCloud (t, Except.error (Err.cloud e)) h = (t ++ (h e).1, (h e).2) := rfl

@[simp] theorem mTryCloud_pair_timeout (t : List Event) (r : String) (h : CloudError → M α) :
    mTryCloud (t, Except.error (Err.timeout r)) h = (t, Except.error (Err.timeout r)) := rfl

@[simp] theorem mBind_apiCall (env : Env) (c : ApiCall) (f : Resource → M β) :
    mBind (apiCall env c) f =
      match env.respond c with
      | Except.ok r => (Event.call c (Except.ok r) :: (f r).1, (f r).2)
      | Except.error (Err.cloud ce) =>
          ([Event.call c (Except.error (Err.cloud ce))], Except.error (Err.cloud ce))
      | Except.error (Err.timeout rid) =>
          ([Event.call c (Except.error (Err.timeout rid))], Except.error (Err.timeout rid)) := by
  cases h : env.respond c with
  | ok rr => simp [apiCall, mBind, h]
  | error ee => cases ee <;> simp [apiCall, mBind, h]

@[simp] theorem createStep_apiCall (env : Env) (c : ApiCall)
    (okMsg : Resource → String) (errPrefix : String) :
    createStep (apiCall env c) okMsg errPrefix =
      match env.respond c with
      | Except.ok r =>
          ([Event.call c (Except.ok r), Event.log (okMsg r)], Except.ok r)
      | Except.error (Err.cloud e) =>
          ([Event.call c (Except.error (Err.cloud e)),
            Event.log (errPrefix ++ e.message)],
           Except.error (Err.cloud e))
      | Except.error (Err.timeout rid) =>
          ([Event.call c (Except.error (Err.timeout rid))],
           Except.error (Err.timeout rid)) := by
  cases h : env.respond c with
  | ok rr => simp [createStep, apiCall, mBind, mTryCloud, logMsg, h]
  | error ee =>
      cases ee with
      | cloud ce =>
          simp [createStep, apiCall, mBind, mTryCloud, logMsg, throwCloud, h]
      | timeout rid =>
          simp [createStep, apiCall, mBind, mTryCloud, logMsg, throwCloud, h]

/-! The trace-machine framework: a machine is a partial step function on a
state; `exec` runs it down a trace, rejecting (None) when a step is
impossible.  Claims become acceptance statements for specific machines. -/

/-- Run a machine step function down a trace. -/
def exec (del : σ → Event → Option σ) : σ → List Event → Option σ
  | s, [] => some s
  | s, e :: t =>
    match del s e with
    | some s2 => exec del s2 t
    | none => none

@[simp] theorem exec_nil (del : σ → Event → Option σ) (s : σ) : exec del s [] = some s := rfl

@[simp] theorem exec_cons (del : σ → Event → Option σ) (s : σ) (e : Event) (t : List Event) :
    exec del s (e :: t) =
      match del s e with
      | some s2 => exec del s2 t
      | none => none := rfl

theorem exec_append (del : σ → Event → Option σ) (s : σ) (t₁ t₂ : List Event) :
    exec del s (t₁ ++ t₂) = (exec del s t₁).bind (fun s2 => exec del s2 t₂) := by
  induction t₁ generalizing s with
  | nil => simp
  | cons e t ih =>
      simp only [List.cons_append, exec_cons]
      cases del s e <;> simp [ih]

/-- Acceptance of a machine on the trace of a computation, together with a
postcondition on the final machine state. -/
def ExecOut (del : σ → Event → Option σ) (s : σ) (t : List Event) (P : σ → Prop) : Prop :=
  match exec del s t with
  | some s2 => P s2
  | none => False

theorem execOut_iff (del : σ → Event → Option σ) (s : σ) (t : List Event) (P : σ → Prop) :
    ExecOut del s t P ↔ ∃ s2, exec del s t = some s2 ∧ P s2 := by
  unfold ExecOut
  cases exec del s t <;> simp

theorem execOut_append (del : σ → Event → Option σ) (s : σ) (t₁ t₂ : List Event)
    (P Q : σ → Prop) (h1 : ExecOut del s t₁ P)
    (h2 : ∀ s2, P s2 → ExecOut del s2 t₂ Q) :
    ExecOut del s (t₁ ++ t₂) Q := by
  unfold ExecOut at h1 ⊢
  rw [exec_append]
  rcases h : exec del s t₁ with _ | s2
  · simp only [h] at h1
  · simp only [h] at h1
    simpa using h2 s2 h1

theorem execOut_mono (del : σ → Event → Option σ) (s : σ) (t : List Event)
    (P Q : σ → Prop) (h1 : ExecOut del s t P) (h2 : ∀ s2, P s2 → Q s2) :
    ExecOut del s t Q := by
  unfold ExecOut at h1 ⊢
  rcases h : exec del s t with _ | s2
  · simp only [h] at h1
  · simp only [h] at h1
    exact h2 _ h1

/-! Machines for the individual claims.  Each machine watches the event
trace and rejects (returns none) exactly when the property it encodes is
violated; acceptance of the whole trace is the claim. -/

/-- The four path components the cleanup code parses out of a volume id. -/
structure VolKey where
  rg : String
  acct : String
  pool : String
  vol : String
deriving DecidableEq

def keyMatches (k : VolKey) (rg a p v : String) : Bool :=
  k.rg == rg && k.acct == a && k.pool == p && k.vol == v

/-- The key a raw volume id parses to, matched fieldwise. -/
def parseMatches (k : VolKey) (rid : String) : Bool :=
  get_resource_group rid == k.rg && get_anf_account rid == k.acct &&
  get_anf_capacity_pool rid == k.pool && get_anf_volume rid == k.vol

def keyMem (k : VolKey) : List VolKey → Bool
  | [] => false
  | k2 :: rest =>
      (k.rg == k2.rg && k.acct == k2.acct && k.pool == k2.pool && k.vol == k2.vol) ||
        keyMem k rest

def strMem (x : String) : List String → Bool
  | [] => false
  | y :: rest => x == y || strMem x rest

/-- An absence-poll expectation: which resource the pending
wait_for_no_anf_resource call must be about, matched by parsing its raw id
argument. -/
inductive WaitSpec where
  | vol (k : VolKey)
  | pool (rg acct pool : String)
  | acct (rg acct : String)
deriving DecidableEq

def waitSpecMatches : WaitSpec → String → Bool
  | WaitSpec.vol k, rid => parseMatches k rid
  | WaitSpec.pool rg a p, rid =>
      get_resource_group rid == rg && get_anf_account rid == a &&
        get_anf_capacity_pool rid == p
  | WaitSpec.acct rg a, rid =>
      get_resource_group rid == rg && get_anf_account rid == a

/-- State of the C1 machine: replication-status checks seen so far, the
deletion tier reached (0 volumes, 1 pools, 2 accounts), and a pending
absence-poll expectation from the last successful delete. -/
structure C1State where
  seen : List VolKey
  tier : Nat
  pending : Option WaitSpec
deriving DecidableEq

/-- C1 machine: a volume delete is only legal at tier 0 and after its own
replication-status check; pool deletes move to tier 1, account deletes to
tier 2 (so no volume delete after a pool delete and no pool delete after an
account delete); every successful delete must be immediately followed by
the matching absence poll, which makes the deletions strictly sequential. -/
def deltaC1 (s : C1State) (e : Event) : Option C1State :=
  match s.pending with
  | some w =>
      match e with
      | Event.call (ApiCall.waitForNoAnfResource rid false) _ =>
          if waitSpecMatches w rid then some { s with pending := none } else none
      | _ => none
  | none =>
      match e with
      | Event.call (ApiCall.replicationStatus rg a p v) _ =>
          some { s with seen := VolKey.mk rg a p v :: s.seen }
      | Event.call (ApiCall.volumesDelete rg a p v) r =>
          if s.tier == 0 && keyMem (VolKey.mk rg a p v) s.seen then
            some { s with pending :=
              match r with
              | Except.ok _ => some (WaitSpec.vol (VolKey.mk rg a p v))
              | Except.error _ => none }
          else none
      | Event.call (ApiCall.poolsDelete rg a p) r =>
          if s.tier ≤ 1 then
            some { seen := s.seen, tier := 1, pending :=
              match r with
              | Except.ok _ => some (WaitSpec.pool rg a p)
              | Except.error _ => none }
          else none
      | Event.call (ApiCall.accountsDelete rg a) r =>
          some { seen := s.seen, tier := 2, pending :=
            match r with
            | Except.ok _ => some (WaitSpec.acct rg a)
            | Except.error _ => none }
      | _ => some s

/-- C2 machine: when a replication-status call fails with a 404 CloudError,
the very next event must be the delete of that same volume (so neither a
replication delete, nor a replication absence wait, nor an error diagnostic
happens in between). -/
def deltaC2 (s : Option VolKey) (e : Event) : Option (Option VolKey) :=
  match s with
  | some k =>
      match e with
      | Event.call (ApiCall.volumesDelete rg a p v) _ =>
          if keyMatches k rg a p v then some none else none
      | _ => none
  | none =>
      match e with
      | Event.call (ApiCall.replicationStatus rg a p v) (Except.error (Err.cloud ce)) =>
          if ce.status_code == 404 then some (some (VolKey.mk rg a p v)) else some none
      | _ => some none

/-- State of the C3 machine: destination volume ids that have been polled
to ready, and a pending expectation that the source volume replication wait
follows a successful authorization. -/
structure C3State where
  ready : List String
  pendingSrcVol : Option String
deriving DecidableEq

/-- C3 machine: an authorize call is only legal when its remote volume id
was previously polled to ready (wait_for_anf_resource returned ok on it),
and a successful authorize must be immediately followed (next provider
interaction) by a replication-mode wait on the source volume. -/
def deltaC3 (s : C3State) (e : Event) : Option C3State :=
  match s.pendingSrcVol with
  | some v =>
      match e with
      | Event.call (ApiCall.waitForAnfResource rid true) _ =>
          if get_anf_volume rid == v then some { s with pendingSrcVol := none } else none
      | _ => none
  | none =>
      match e with
      | Event.call (ApiCall.waitForAnfResource rid false) (Except.ok _) =>
          some { s with ready := rid :: s.ready }
      | Event.call (ApiCall.authorizeReplication _ _ _ v remote) r =>
          if strMem remote s.ready then
            some { s with pendingSrcVol :=
              match r with
              | Except.ok _ => some v
              | Except.error _ => none }
          else none
      | _ => some s

/-- C4 machine (state: resource ids of successfully created primary
volumes): any volume body carrying a data_protection object must be for the
secondary volume, with endpoint type dst and a remote volume id that is the
id of an already-created primary volume; the primary volume body must carry
no data_protection, and the secondary volume body must carry one. -/
def deltaC4 (ids : List String) (e : Event) : Option (List String) :=
  match e with
  | Event.call (ApiCall.volumesCreateOrUpdate body _ _ _ _) r =>
      let ok : Bool :=
        match body.data_protection with
        | none => !(body.creation_token == SECONDARY_VOLUME_NAME)
        | some dp =>
            !(body.creation_token == PRIMARY_VOLUME_NAME) &&
            dp.replication.endpoint_type == "dst" &&
            strMem dp.replication.remote_volume_resource_id ids
      if ok then
        match r with
        | Except.ok res =>
            if body.creation_token == PRIMARY_VOLUME_NAME then some (res.id :: ids)
            else some ids
        | Except.error _ => some ids
      else none
  | _ => some ids

/-- State of the C5 machine: where we are inside the fixed
status / delete-replication / wait / volume-delete sequence of one volume. -/
inductive C5State where
  | free
  | expectDeleteRepl (k : VolKey)
  | expectReplWait (k : VolKey)
  | expectVolDelete (k : VolKey)
deriving DecidableEq

/-- C5 machine: after a successful replication-status check the script must
issue, in this order and with nothing in between, the replication delete for
the same volume, the replication absence wait, and the volume delete; a step
that fails either aborts the run (non-404 CloudError or timeout, no further
step required) or is the swallowed 404, after which the volume delete must
still follow at once. -/
def deltaC5 (s : C5State) (e : Event) : Option C5State :=
  match s with
  | C5State.free =>
      match e with
      | Event.call (ApiCall.replicationStatus rg a p v) (Except.ok _) =>
          some (C5State.expectDeleteRepl (VolKey.mk rg a p v))
      | _ => some C5State.free
  | C5State.expectDeleteRepl k =>
      match e with
      | Event.call (ApiCall.deleteReplication rg a p v) r =>
          if keyMatches k rg a p v then
            some
              (match r with
              | Except.ok _ => C5State.expectReplWait k
              | Except.error (Err.cloud ce) =>
                  if ce.status_code == 404 then C5State.expectVolDelete k else C5State.free
              | Except.error (Err.timeout _) => C5State.free)
          else none
      | _ => none
  | C5State.expectReplWait k =>
      match e with
      | Event.call (ApiCall.waitForNoAnfResource rid true) r =>
          if parseMatches k rid then
            some
              (match r with
              | Except.ok _ => C5State.expectVolDelete k
              | Except.error (Err.cloud ce) =>
                  if ce.status_code == 404 then C5State.expectVolDelete k else C5State.free
              | Except.error (Err.timeout _) => C5State.free)
          else none
      | _ => none
  | C5State.expectVolDelete k =>
      match e with
      | Event.call (ApiCall.volumesDelete rg a p v) _ =>
          if keyMatches k rg a p v then some C5State.free else none
      | _ => none

/-- C6 machine: every successful delete call (volume, pool or account) must
be immediately followed by the absence poll on the id of the very resource
just deleted. -/
def deltaC6 (s : Option WaitSpec) (e : Event) : Option (Option WaitSpec) :=
  match s with
  | some w =>
      match e with
      | Event.call (ApiCall.waitForNoAnfResource rid false) _ =>
          if waitSpecMatches w rid then some none else none
      | _ => none
  | none =>
      match e with
      | Event.call (ApiCall.volumesDelete rg a p v) (Except.ok _) =>
          some (some (WaitSpec.vol (VolKey.mk rg a p v)))
      | Event.call (ApiCall.poolsDelete rg a p) (Except.ok _) =>
          some (some (WaitSpec.pool rg a p))
      | Event.call (ApiCall.accountsDelete rg a) (Except.ok _) =>
          some (some (WaitSpec.acct rg a))
      | _ => some none

/-- State of the amended C7 machine: which provider interaction must come
next in the creation chain. -/
inductive C7State where
  | free
  | expectPool (acctName : String)
  | expectVolume (poolId : String)
  | expectVolWait (volId : String)
deriving DecidableEq

/-- Amended C7 machine: after a successful account create the next provider
interaction is the pool create under that account (no readiness poll for
accounts); after a successful pool create the next interaction is the volume
create in that pool (no readiness poll for pools); only after a successful
volume create is the next interaction the ReadinessWaiter poll on that
volume id. -/
def deltaC7 (s : C7State) (e : Event) : Option C7State :=
  match s with
  | C7State.free =>
      match e with
      | Event.call (ApiCall.accountsCreateOrUpdate _ _ _) r =>
          some
            (match r with
            | Except.ok res => C7State.expectPool res.name
            | Except.error _ => C7State.free)
      | Event.call (ApiCall.volumesCreateOrUpdate _ _ _ _ _) r =>
          some
            (match r with
            | Except.ok res => C7State.expectVolWait res.id
            | Except.error _ => C7State.free)
      | _ => some C7State.free
  | C7State.expectPool acctName =>
      match e with
      | Event.log _ => some (C7State.expectPool acctName)
      | Event.call (ApiCall.poolsCreateOrUpdate _ _ acct _) r =>
          if acct == acctName then
            some
              (match r with
              | Except.ok res => C7State.expectVolume res.id
              | Except.error _ => C7State.free)
          else none
      | _ => none
  | C7State.expectVolume poolId =>
      match e with
      | Event.log _ => some (C7State.expectVolume poolId)
      | Event.call (ApiCall.volumesCreateOrUpdate _ _ _ pool _) r =>
          if pool == get_anf_capacity_pool poolId then
            some
              (match r with
              | Except.ok res => C7State.expectVolWait res.id
              | Except.error _ => C7State.free)
          else none
      | _ => none
  | C7State.expectVolWait volId =>
      match e with
      | Event.log _ => some (C7State.expectVolWait volId)
      | Event.call (ApiCall.waitForAnfResource rid false) _ =>
          if rid == volId then some C7State.free else none
      | _ => none

/-- Machine for C7 exactly as the claim states it: every creation
(account, pool or volume) must be followed by a ReadinessWaiter poll on the
created resource before any dependent resource creation is issued. -/
def deltaC7claim (s : Option String) (e : Event) : Option (Option String) :=
  match s with
  | some rid =>
      match e with
      | Event.call (ApiCall.waitForAnfResource r2 _) _ =>
          if r2 == rid then some none else some (some rid)
      | Event.call (ApiCall.accountsCreateOrUpdate _ _ _) _ => none
      | Event.call (ApiCall.poolsCreateOrUpdate _ _ _ _) _ => none
      | Event.call (ApiCall.volumesCreateOrUpdate _ _ _ _ _) _ => none
      | _ => some (some rid)
  | none =>
      match e with
      | Event.call (ApiCall.accountsCreateOrUpdate _ _ _) (Except.ok r) => some (some r.id)
      | Event.call (ApiCall.poolsCreateOrUpdate _ _ _ _) (Except.ok r) => some (some r.id)
      | Event.call (ApiCall.volumesCreateOrUpdate _ _ _ _ _) (Except.ok r) => some (some r.id)
      | _ => some none

/-- Calls whose CloudErrors the teardown replication try/except may swallow
when the status code is 404: the replication status check, the replication
delete and the replication absence wait, all inside the same try block. -/
def swallowableCall : ApiCall → Bool
  | ApiCall.replicationStatus _ _ _ _ => true
  | ApiCall.deleteReplication _ _ _ _ => true
  | ApiCall.waitForNoAnfResource _ true => true
  | _ => false

/-- State of the abort machine: free, or unwinding after CloudError e. -/
inductive C9bState where
  | free
  | aborting (e : CloudError)
deriving DecidableEq

/-- C9b machine: any CloudError outcome that is not a swallowable 404 puts
the run into an aborting state in which only log events may follow (errors
are re-raised, never continued past). -/
def deltaC9b (s : C9bState) (e : Event) : Option C9bState :=
  match s with
  | C9bState.aborting err =>
      match e with
      | Event.log _ => some (C9bState.aborting err)
      | _ => none
  | C9bState.free =>
      match e with
      | Event.call c (Except.error (Err.cloud ce)) =>
          if swallowableCall c && ce.status_code == 404 then some C9bState.free
          else some (C9bState.aborting ce)
      | _ => some C9bState.free

/-- The create and delete calls whose CloudErrors the script logs with a
diagnostic line before re-raising. -/
def loggedKinds : ApiCall → Bool
  | ApiCall.accountsCreateOrUpdate _ _ _ => true
  | ApiCall.poolsCreateOrUpdate _ _ _ _ => true
  | ApiCall.volumesCreateOrUpdate _ _ _ _ _ => true
  | ApiCall.volumesDelete _ _ _ _ => true
  | ApiCall.poolsDelete _ _ _ => true
  | ApiCall.accountsDelete _ _ => true
  | ApiCall.deleteReplication _ _ _ _ => true
  | _ => false

/-- The diagnostic line prefixes the script uses. -/
def diagnosticPrefixes : List String :=
  ["An error occurred while creating Account: ",
   "An error occurred while creating Capacity Pool: ",
   "An error occurred while creating Volume: ",
   "An error occurred while deleting replication: ",
   "An error occurred while deleting volumes: ",
   "An error occurred while deleting capacity pools: ",
   "An error occurred while deleting accounts: "]

/-- Does the log line m report the provider message msg with one of the
diagnostic prefixes the script uses. -/
def isDiagnosticFor (msg m : String) : Bool :=
  diagnosticPrefixes.any (fun p => m == p ++ msg)

/-- State of the logging machine: free, or waiting for a diagnostic line
carrying the given provider message. -/
inductive C9LState where
  | free
  | needLog (msg : String)
deriving DecidableEq

/-- C9L machine: a non-swallowed CloudError on a create or delete call must
be followed by a diagnostic log line containing the provider message before
any further provider interaction. -/
def deltaC9L (s : C9LState) (e : Event) : Option C9LState :=
  match s with
  | C9LState.needLog msg =>
      match e with
      | Event.log m =>
          if isDiagnosticFor msg m then some C9LState.free
          else some (C9LState.needLog msg)
      | _ => none
  | C9LState.free =>
      match e with
      | Event.call c (Except.error (Err.cloud ce)) =>
          if loggedKinds c && !(swallowableCall c && ce.status_code == 404) then
            some (C9LState.needLog ce.message)
          else some C9LState.free
      | _ => some C9LState.free

/-- The product state of all trace machines, so that the trace analysis of
each phase of the script is done once. -/
structure MState where
  s1 : C1State
  s2 : Option VolKey
  s3 : C3State
  s4 : List String
  s5 : C5State
  s6 : Option WaitSpec
  s7 : C7State
  s9b : C9bState
  s9L : C9LState
deriving DecidableEq

/-- The product machine: step every component machine, reject when any
component rejects. -/
def deltaM (s : MState) (e : Event) : Option MState :=
  (deltaC1 s.s1 e).bind fun a1 =>
  (deltaC2 s.s2 e).bind fun a2 =>
  (deltaC3 s.s3 e).bind fun a3 =>
  (deltaC4 s.s4 e).bind fun a4 =>
  (deltaC5 s.s5 e).bind fun a5 =>
  (deltaC6 s.s6 e).bind fun a6 =>
  (deltaC7 s.s7 e).bind fun a7 =>
  (deltaC9b s.s9b e).bind fun a9b =>
  (deltaC9L s.s9L e).map fun a9L =>
  MState.mk a1 a2 a3 a4 a5 a6 a7 a9b a9L

/-- Initial state of the product machine. -/
def initM : MState :=
  MState.mk (C1State.mk [] 0 none) none (C3State.mk [] none) []
    C5State.free none C7State.free C9bState.free C9LState.free

/-- Acceptance of the product machine projects to acceptance of every
component machine. -/
theorem execM_proj (t : List Event) (s s2 : MState)
    (h : exec deltaM s t = some s2) :
    exec deltaC1 s.s1 t = some s2.s1 ∧
    exec deltaC2 s.s2 t = some s2.s2 ∧
    exec deltaC3 s.s3 t = some s2.s3 ∧
    exec deltaC4 s.s4 t = some s2.s4 ∧
    exec deltaC5 s.s5 t = some s2.s5 ∧
    exec deltaC6 s.s6 t = some s2.s6 ∧
    exec deltaC7 s.s7 t = some s2.s7 ∧
    exec deltaC9b s.s9b t = some s2.s9b ∧
    exec deltaC9L s.s9L t = some s2.s9L := by
  induction t generalizing s with
  | nil =>
      simp only [exec_nil, Option.some.injEq] at h
      subst h
      simp
  | cons e t ih =>
      simp only [exec_cons] at h ⊢
      rcases h1 : deltaC1 s.s1 e with _ | a1 <;> simp [deltaM, h1] at h
      rcases h2 : deltaC2 s.s2 e with _ | a2 <;> simp [h2] at h
      rcases h3 : deltaC3 s.s3 e with _ | a3 <;> simp [h3] at h
      rcases h4 : deltaC4 s.s4 e with _ | a4 <;> simp [h4] at h
      rcases h5 : deltaC5 s.s5 e with _ | a5 <;> simp [h5] at h
      rcases h6 : deltaC6 s.s6 e with _ | a6 <;> simp [h6] at h
      rcases h7 : deltaC7 s.s7 e with _ | a7 <;> simp [h7] at h
      rcases h9b : deltaC9b s.s9b e with _ | a9b <;> simp [h9b] at h
      rcases h9L : deltaC9L s.s9L e with _ | a9L <;> simp [h9L] at h
      exact ih (MState.mk a1 a2 a3 a4 a5 a6 a7 a9b a9L) h

/-- Acceptance of a machine on the trace of a computation, with a
postcondition relating the final machine state and the computation result. -/
def StepsOut (del : σ → Event → Option σ) (s : σ) (x : M α)
    (P : σ → Except Err α → Prop) : Prop :=
  match exec del s x.1 with
  | some s2 => P s2 x.2
  | none => False

/-- What the abort machine state must be, given how a phase ended: free on
success or timeout, aborting with the very error on a CloudError exit. -/
def PostC9b (r : Except Err α) (s : C9bState) : Prop :=
  match r with
  | Except.ok _ => s = C9bState.free
  | Except.error (Err.cloud e) => s = C9bState.aborting e
  | Except.error (Err.timeout _) => s = C9bState.free

/-- What the logging machine state may be after a phase whose diagnostic for
a CloudError exit is written by an enclosing handler: free, or still waiting
for the diagnostic of that very error. -/
def PostC9L (r : Except Err α) (s : C9LState) : Prop :=
  match r with
  | Except.error (Err.cloud e) => s = C9LState.free ∨ s = C9LState.needLog e.message
  | _ => s = C9LState.free

theorem mBind_eq_ok {x : M α} {a : α} (h : x.2 = Except.ok a) (f : α → M β) :
    mBind x f = (x.1 ++ (f a).1, (f a).2) := by
  unfold mBind; rw [h]

theorem mBind_eq_error {x : M α} {e : Err} (h : x.2 = Except.error e) (f : α → M β) :
    mBind x f = (x.1, Except.error e) := by
  unfold mBind; rw [h]

theorem mTry_eq_ok {x : M α} {a : α} (h : x.2 = Except.ok a) (hdl : CloudError → M α) :
    mTryCloud x hdl = x := by
  unfold mTryCloud; rw [h]

theorem mTry_eq_cloud {x : M α} {e : CloudError}
    (h : x.2 = Except.error (Err.cloud e)) (hdl : CloudError → M α) :
    mTryCloud x hdl = (x.1 ++ (hdl e).1, (hdl e).2) := by
  unfold mTryCloud; rw [h]

theorem mTry_eq_timeout {x : M α} {rid : String}
    (h : x.2 = Except.error (Err.timeout rid)) (hdl : CloudError → M α) :
    mTryCloud x hdl = x := by
  unfold mTryCloud; rw [h]

/-- Sequencing rule for machine acceptance. -/
theorem stepsOut_bind {σ α β : Type} {del : σ → Event → Option σ} {s : σ} {x : M α}
    {f : α → M β} {P : σ → Except Err α → Prop} {Q : σ → Except Err β → Prop}
    (hx : StepsOut del s x P)
    (hok : ∀ a s2, x.2 = Except.ok a → P s2 (Except.ok a) → StepsOut del s2 (f a) Q)
    (herr : ∀ e s2, x.2 = Except.error e → P s2 (Except.error e) → Q s2 (Except.error e)) :
    StepsOut del s (mBind x f) Q := by
  unfold StepsOut at hx ⊢
  rcases hx2 : x.2 with e | a
  · rw [mBind_eq_error hx2]
    rcases hex : exec del s x.1 with _ | s2
    · simp only [hex] at hx
    · simp only [hex] at hx
      rw [hx2] at hx
      simp only [hex]
      exact herr e s2 hx2 hx
  · rw [mBind_eq_ok hx2, exec_append]
    rcases hex : exec del s x.1 with _ | s2
    · simp only [hex] at hx
    · simp only [hex] at hx
      rw [hx2] at hx
      have hq := hok a s2 hx2 hx
      unfold StepsOut at hq
      simpa using hq

/-- Try/except rule for machine acceptance. -/
theorem stepsOut_mTry {σ α : Type} {del : σ → Event → Option σ} {s : σ} {x : M α}
    {hdl : CloudError → M α} {P Q : σ → Except Err α → Prop}
    (hx : StepsOut del s x P)
    (hok : ∀ a s2, x.2 = Except.ok a → P s2 (Except.ok a) → Q s2 (Except.ok a))
    (htmo : ∀ rid s2, x.2 = Except.error (Err.timeout rid) →
      P s2 (Except.error (Err.timeout rid)) → Q s2 (Except.error (Err.timeout rid)))
    (hcloud : ∀ e s2, x.2 = Except.error (Err.cloud e) →
      P s2 (Except.error (Err.cloud e)) → StepsOut del s2 (hdl e) Q) :
    StepsOut del s (mTryCloud x hdl) Q := by
  unfold StepsOut at hx ⊢
  rcases hx2 : x.2 with e | a
  · cases e with
    | cloud ce =>
        rw [mTry_eq_cloud hx2, exec_append]
        rcases hex : exec del s x.1 with _ | s2
        · simp only [hex] at hx
        · simp only [hex] at hx
          rw [hx2] at hx
          have hq := hcloud ce s2 hx2 hx
          unfold StepsOut at hq
          simpa using hq
    | timeout rid =>
        rw [mTry_eq_timeout hx2]
        rcases hex : exec del s x.1 with _ | s2
        · simp only [hex] at hx
        · simp only [hex] at hx
          rw [hx2] at hx
          simp only [hex, hx2]
          exact htmo rid s2 hx2 hx
  · rw [mTry_eq_ok hx2]
    rcases hex : exec del s x.1 with _ | s2
    · simp only [hex] at hx
    · simp only [hex] at hx
      rw [hx2] at hx
      simp only [hex, hx2]
      exact hok a s2 hx2 hx

theorem forEachId_cons (f : String → M Unit) (x : String) (xs : List String) :
    forEachId f (x :: xs) = mBind (f x) (fun _ => forEachId f xs) := rfl

theorem forEachId_nil (f : String → M Unit) : forEachId f [] = ([], Except.ok ()) := rfl

set_option maxHeartbeats 4000000 in
/-- Running the product machine from its initial state over the whole
provisioning phase: every pending expectation is discharged within the
phase, no teardown activity happens, and the abort machine state matches
the phase outcome. -/
theorem provision_steps (env : Env) :
    StepsOut deltaM initM (provision_phase env)
      (fun s2 r =>
        s2.s1 = C1State.mk [] 0 none ∧ s2.s2 = none ∧ s2.s3.pendingSrcVol = none ∧
        s2.s5 = C5State.free ∧ s2.s6 = none ∧ s2.s7 = C7State.free ∧
        s2.s9L = C9LState.free ∧ PostC9b r s2.s9b) := by
  simp only [provision_phase, create_account, create_capacity_pool, create_volume,
    wait_for_anf_resource, m_bind_def, m_pure_def, mBind_pair_ok, mBind_pair_error,
    mBind_logMsg, mBind_apiCall, createStep_apiCall, mTryCloud_pair_ok,
    mTryCloud_pair_cloud, mTryCloud_pair_timeout, throwCloud, List.cons_append,
    List.nil_append, List.append_assoc]
  all_goals (repeat' split)
  all_goals (try simp only [m_bind_def, m_pure_def, mBind_pair_ok, mBind_pair_error,
    mBind_logMsg, mBind_apiCall, createStep_apiCall, mTryCloud_pair_ok,
    mTryCloud_pair_cloud, mTryCloud_pair_timeout, throwCloud, List.cons_append,
    List.nil_append, List.append_assoc])
  all_goals (repeat' split)
  all_goals (try simp only [m_bind_def, m_pure_def, mBind_pair_ok, mBind_pair_error,
    mBind_logMsg, mBind_apiCall, createStep_apiCall, mTryCloud_pair_ok,
    mTryCloud_pair_cloud, mTryCloud_pair_timeout, throwCloud, List.cons_append,
    List.nil_append, List.append_assoc])
  all_goals (repeat' split)
  all_goals (try simp only [m_bind_def, m_pure_def, mBind_pair_ok, mBind_pair_error,
    mBind_logMsg, mBind_apiCall, createStep_apiCall, mTryCloud_pair_ok,
    mTryCloud_pair_cloud, mTryCloud_pair_timeout, throwCloud, List.cons_append,
    List.nil_append, List.append_assoc])
  all_goals (repeat' split)
  all_goals (try simp only [m_bind_def, m_pure_def, mBind_pair_ok, mBind_pair_error,
    mBind_logMsg, mBind_apiCall, createStep_apiCall, mTryCloud_pair_ok,
    mTryCloud_pair_cloud, mTryCloud_pair_timeout, throwCloud, List.cons_append,
    List.nil_append, List.append_assoc])
  all_goals (repeat' split)
  all_goals (try simp only [m_bind_def, m_pure_def, mBind_pair_ok, mBind_pair_error,
    mBind_logMsg, mBind_apiCall, createStep_apiCall, mTryCloud_pair_ok,
    mTryCloud_pair_cloud, mTryCloud_pair_timeout, throwCloud, List.cons_append,
    List.nil_append, List.append_assoc])
  all_goals (repeat' split)
  all_goals (try simp only [m_bind_def, m_pure_def, mBind_pair_ok, mBind_pair_error,
    mBind_logMsg, mBind_apiCall, createStep_apiCall, mTryCloud_pair_ok,
    mTryCloud_pair_cloud, mTryCloud_pair_timeout, throwCloud, List.cons_append,
    List.nil_append, List.append_assoc])
  all_goals (repeat' split)
  all_goals (try simp only [m_bind_def, m_pure_def, mBind_pair_ok, mBind_pair_error,
    mBind_logMsg, mBind_apiCall, createStep_apiCall, mTryCloud_pair_ok,
    mTryCloud_pair_cloud, mTryCloud_pair_timeout, throwCloud, List.cons_append,
    List.nil_append, List.append_assoc])
  all_goals (repeat' split)
  all_goals (try simp only [m_bind_def, m_pure_def, mBind_pair_ok, mBind_pair_error,
    mBind_logMsg, mBind_apiCall, createStep_apiCall, mTryCloud_pair_ok,
    mTryCloud_pair_cloud, mTryCloud_pair_timeout, throwCloud, List.cons_append,
    List.nil_append, List.append_assoc])
  all_goals (repeat' split)
  all_goals (try simp only [m_bind_def, m_pure_def, mBind_pair_ok, mBind_pair_error,
    mBind_logMsg, mBind_apiCall, createStep_apiCall, mTryCloud_pair_ok,
    mTryCloud_pair_cloud, mTryCloud_pair_timeout, throwCloud, List.cons_append,
    List.nil_append, List.append_assoc])
  all_goals (repeat' split)
  all_goals (try simp only [m_bind_def, m_pure_def, mBind_pair_ok, mBind_pair_error,
    mBind_logMsg, mBind_apiCall, createStep_apiCall, mTryCloud_pair_ok,
    mTryCloud_pair_cloud, mTryCloud_pair_timeout, throwCloud, List.cons_append,
    List.nil_append, List.append_assoc])
  all_goals (try (simp [StepsOut, exec_cons, exec_nil, deltaM, deltaC1, deltaC2, deltaC3,
    deltaC4, deltaC5, deltaC6, deltaC7, deltaC9b, deltaC9L, initM, PostC9b, PostC9L,
    loggedKinds, swallowableCall, isDiagnosticFor, diagnosticPrefixes, keyMatches,
    parseMatches, keyMem, strMem, waitSpecMatches, PRIMARY_VOLUME_NAME,
    SECONDARY_VOLUME_NAME]))

set_option maxHeartbeats 4000000 in
/-- Running the product machine through one iteration of the volume cleanup
loop: starting at tier 0 with no pending expectations, the machine accepts
the whole iteration and ends again with no pending expectations, with the
abort and logging machine states determined by the iteration outcome. -/
theorem delete_volume_iter_steps (env : Env) (vid : String) (seen : List VolKey)
    (ready ids : List String) :
    StepsOut deltaM
      (MState.mk (C1State.mk seen 0 none) none (C3State.mk ready none) ids
        C5State.free none C7State.free C9bState.free C9LState.free)
      (delete_volume_iter env vid)
      (fun s2 r =>
        s2.s1.tier = 0 ∧ s2.s1.pending = none ∧ s2.s2 = none ∧
        s2.s3.pendingSrcVol = none ∧ s2.s4 = ids ∧ s2.s5 = C5State.free ∧
        s2.s6 = none ∧ s2.s7 = C7State.free ∧ PostC9b r s2.s9b ∧ PostC9L r s2.s9L) := by
  simp only [delete_volume_iter, wait_for_no_anf_resource, m_bind_def, m_pure_def,
    mBind_pair_ok, mBind_pair_error, mBind_logMsg, mBind_apiCall, mTryCloud_pair_ok,
    mTryCloud_pair_cloud, mTryCloud_pair_timeout, throwCloud, List.cons_append,
    List.nil_append, List.append_assoc]
  all_goals (repeat' split)
  all_goals (try simp only [m_bind_def, m_pure_def, mBind_pair_ok, mBind_pair_error,
    mBind_logMsg, mBind_apiCall, createStep_apiCall, mTryCloud_pair_ok,
    mTryCloud_pair_cloud, mTryCloud_pair_timeout, throwCloud, List.cons_append,
    List.nil_append, List.append_assoc])
  all_goals (repeat' split)
  all_goals (try simp only [m_bind_def, m_pure_def, mBind_pair_ok, mBind_pair_error,
    mBind_logMsg, mBind_apiCall, createStep_apiCall, mTryCloud_pair_ok,
    mTryCloud_pair_cloud, mTryCloud_pair_timeout, throwCloud, List.cons_append,
    List.nil_append, List.append_assoc])
  all_goals (repeat' split)
  all_goals (try simp only [m_bind_def, m_pure_def, mBind_pair_ok, mBind_pair_error,
    mBind_logMsg, mBind_apiCall, createStep_apiCall, mTryCloud_pair_ok,
    mTryCloud_pair_cloud, mTryCloud_pair_timeout, throwCloud, List.cons_append,
    List.nil_append, List.append_assoc])
  all_goals (repeat' split)
  all_goals (try simp only [m_bind_def, m_pure_def, mBind_pair_ok, mBind_pair_error,
    mBind_logMsg, mBind_apiCall, createStep_apiCall, mTryCloud_pair_ok,
    mTryCloud_pair_cloud, mTryCloud_pair_timeout, throwCloud, List.cons_append,
    List.nil_append, List.append_assoc])
  all_goals (repeat' split)
  all_goals (try simp only [m_bind_def, m_pure_def, mBind_pair_ok, mBind_pair_error,
    mBind_logMsg, mBind_apiCall, createStep_apiCall, mTryCloud_pair_ok,
    mTryCloud_pair_cloud, mTryCloud_pair_timeout, throwCloud, List.cons_append,
    List.nil_append, List.append_assoc])
  all_goals (repeat' split)
  all_goals (try simp only [m_bind_def, m_pure_def, mBind_pair_ok, mBind_pair_error,
    mBind_logMsg, mBind_apiCall, createStep_apiCall, mTryCloud_pair_ok,
    mTryCloud_pair_cloud, mTryCloud_pair_timeout, throwCloud, List.cons_append,
    List.nil_append, List.append_assoc])
  all_goals (repeat' split)
  all_goals (try simp only [m_bind_def, m_pure_def, mBind_pair_ok, mBind_pair_error,
    mBind_logMsg, mBind_apiCall, createStep_apiCall, mTryCloud_pair_ok,
    mTryCloud_pair_cloud, mTryCloud_pair_timeout, throwCloud, List.cons_append,
    List.nil_append, List.append_assoc])
  all_goals (repeat' split)
  all_goals (try simp only [m_bind_def, m_pure_def, mBind_pair_ok, mBind_pair_error,
    mBind_logMsg, mBind_apiCall, createStep_apiCall, mTryCloud_pair_ok,
    mTryCloud_pair_cloud, mTryCloud_pair_timeout, throwCloud, List.cons_append,
    List.nil_append, List.append_assoc])
  all_goals (try (simp [*, StepsOut, exec_cons, exec_nil, deltaM, deltaC1, deltaC2, deltaC3,
    deltaC4, deltaC5, deltaC6, deltaC7, deltaC9b, deltaC9L, PostC9b, PostC9L, logMsg,
    loggedKinds, swallowableCall, isDiagnosticFor, diagnosticPrefixes, keyMatches,
    parseMatches, keyMem, strMem, waitSpecMatches]))

set_option maxHeartbeats 4000000 in
/-- Running the product machine through one iteration of the pool cleanup
loop, entered at tier 0 or 1. -/
theorem delete_pool_iter_steps (env : Env) (pid : String) (seen : List VolKey)
    (ready ids : List String) (t : Nat) (ht : t ≤ 1) :
    StepsOut deltaM
      (MState.mk (C1State.mk seen t none) none (C3State.mk ready none) ids
        C5State.free none C7State.free C9bState.free C9LState.free)
      (delete_pool_iter env pid)
      (fun s2 r =>
        s2.s1.tier = 1 ∧ s2.s1.pending = none ∧ s2.s2 = none ∧
        s2.s3.pendingSrcVol = none ∧ s2.s4 = ids ∧ s2.s5 = C5State.free ∧
        s2.s6 = none ∧ s2.s7 = C7State.free ∧ PostC9b r s2.s9b ∧ PostC9L r s2.s9L) := by
  simp only [delete_pool_iter, wait_for_no_anf_resource, m_bind_def, m_pure_def,
    mBind_pair_ok, mBind_pair_error, mBind_logMsg, mBind_apiCall, mTryCloud_pair_ok,
    mTryCloud_pair_cloud, mTryCloud_pair_timeout, throwCloud, List.cons_append,
    List.nil_append, List.append_assoc]
  all_goals (repeat' split)
  all_goals (try simp only [m_bind_def, m_pure_def, mBind_pair_ok, mBind_pair_error,
    mBind_logMsg, mBind_apiCall, createStep_apiCall, mTryCloud_pair_ok,
    mTryCloud_pair_cloud, mTryCloud_pair_timeout, throwCloud, List.cons_append,
    List.nil_append, List.append_assoc])
  all_goals (repeat' split)
  all_goals (try simp only [m_bind_def, m_pure_def, mBind_pair_ok, mBind_pair_error,
    mBind_logMsg, mBind_apiCall, createStep_apiCall, mTryCloud_pair_ok,
    mTryCloud_pair_cloud, mTryCloud_pair_timeout, throwCloud, List.cons_append,
    List.nil_append, List.append_assoc])
  all_goals (repeat' split)
  all_goals (try simp only [m_bind_def, m_pure_def, mBind_pair_ok, mBind_pair_error,
    mBind_logMsg, mBind_apiCall, createStep_apiCall, mTryCloud_pair_ok,
    mTryCloud_pair_cloud, mTryCloud_pair_timeout, throwCloud, List.cons_append,
    List.nil_append, List.append_assoc])
  all_goals (repeat' split)
  all_goals (try simp only [m_bind_def, m_pure_def, mBind_pair_ok, mBind_pair_error,
    mBind_logMsg, mBind_apiCall, createStep_apiCall, mTryCloud_pair_ok,
    mTryCloud_pair_cloud, mTryCloud_pair_timeout, throwCloud, List.cons_append,
    List.nil_append, List.append_assoc])
  all_goals (repeat' split)
  all_goals (try simp only [m_bind_def, m_pure_def, mBind_pair_ok, mBind_pair_error,
    mBind_logMsg, mBind_apiCall, createStep_apiCall, mTryCloud_pair_ok,
    mTryCloud_pair_cloud, mTryCloud_pair_timeout, throwCloud, List.cons_append,
    List.nil_append, List.append_assoc])
  all_goals (try (simp [*, StepsOut, exec_cons, exec_nil, deltaM, deltaC1, deltaC2, deltaC3,
    deltaC4, deltaC5, deltaC6, deltaC7, deltaC9b, deltaC9L, PostC9b, PostC9L, logMsg,
    loggedKinds, swallowableCall, isDiagnosticFor, diagnosticPrefixes, keyMatches,
    parseMatches, keyMem, strMem, waitSpecMatches, ht]))

set_option maxHeartbeats 4000000 in
/-- Running the product machine through one iteration of the account cleanup
loop, entered at any tier. -/
theorem delete_account_iter_steps (env : Env) (aid : String) (seen : List VolKey)
    (ready ids : List String) (t : Nat) :
    StepsOut deltaM
      (MState.mk (C1State.mk seen t none) none (C3State.mk ready none) ids
        C5State.free none C7State.free C9bState.free C9LState.free)
      (delete_account_iter env aid)
      (fun s2 r =>
        s2.s1.tier = 2 ∧ s2.s1.pending = none ∧ s2.s2 = none ∧
        s2.s3.pendingSrcVol = none ∧ s2.s4 = ids ∧ s2.s5 = C5State.free ∧
        s2.s6 = none ∧ s2.s7 = C7State.free ∧ PostC9b r s2.s9b ∧ PostC9L r s2.s9L) := by
  simp only [delete_account_iter, wait_for_no_anf_resource, m_bind_def, m_pure_def,
    mBind_pair_ok, mBind_pair_error, mBind_logMsg, mBind_apiCall, mTryCloud_pair_ok,
    mTryCloud_pair_cloud, mTryCloud_pair_timeout, throwCloud, List.cons_append,
    List.nil_append, List.append_assoc]
  all_goals (repeat' split)
  all_goals (try simp only [m_bind_def, m_pure_def, mBind_pair_ok, mBind_pair_error,
    mBind_logMsg, mBind_apiCall, createStep_apiCall, mTryCloud_pair_ok,
    mTryCloud_pair_cloud, mTryCloud_pair_timeout, throwCloud, List.cons_append,
    List.nil_append, List.append_assoc])
  all_goals (repeat' split)
  all_goals (try simp only [m_bind_def, m_pure_def, mBind_pair_ok, mBind_pair_error,
    mBind_logMsg, mBind_apiCall, createStep_apiCall, mTryCloud_pair_ok,
    mTryCloud_pair_cloud, mTryCloud_pair_timeout, throwCloud, List.cons_append,
    List.nil_append, List.append_assoc])
  all_goals (repeat' split)
  all_goals (try simp only [m_bind_def, m_pure_def, mBind_pair_ok, mBind_pair_error,
    mBind_logMsg, mBind_apiCall, createStep_apiCall, mTryCloud_pair_ok,
    mTryCloud_pair_cloud, mTryCloud_pair_timeout, throwCloud, List.cons_append,
    List.nil_append, List.append_assoc])
  all_goals (repeat' split)
  all_goals (try simp only [m_bind_def, m_pure_def, mBind_pair_ok, mBind_pair_error,
    mBind_logMsg, mBind_apiCall, createStep_apiCall, mTryCloud_pair_ok,
    mTryCloud_pair_cloud, mTryCloud_pair_timeout, throwCloud, List.cons_append,
    List.nil_append, List.append_assoc])
  all_goals (repeat' split)
  all_goals (try simp only [m_bind_def, m_pure_def, mBind_pair_ok, mBind_pair_error,
    mBind_logMsg, mBind_apiCall, createStep_apiCall, mTryCloud_pair_ok,
    mTryCloud_pair_cloud, mTryCloud_pair_timeout, throwCloud, List.cons_append,
    List.nil_append, List.append_assoc])
  all_goals (try (simp [*, StepsOut, exec_cons, exec_nil, deltaM, deltaC1, deltaC2, deltaC3,
    deltaC4, deltaC5, deltaC6, deltaC7, deltaC9b, deltaC9L, PostC9b, PostC9L, logMsg,
    loggedKinds, swallowableCall, isDiagnosticFor, diagnosticPrefixes, keyMatches,
    parseMatches, keyMem, strMem, waitSpecMatches]))

theorem stepsOut_mono {σ α : Type} {del : σ → Event → Option σ} {s : σ} {x : M α}
    {P Q : σ → Except Err α → Prop} (h : StepsOut del s x P)
    (himp : ∀ s2, P s2 x.2 → Q s2 x.2) : StepsOut del s x Q := by
  unfold StepsOut at h ⊢
  rcases hex : exec del s x.1 with _ | s2
  · simp only [hex] at h
  · simp only [hex] at h
    exact himp s2 h

theorem isDiagnosticFor_append (msg p : String) (hp : p ∈ diagnosticPrefixes) :
    isDiagnosticFor msg (p ++ msg) = true := by
  unfold isDiagnosticFor
  rw [List.any_eq_true]
  exact ⟨p, hp, by simp⟩

/-- A single console line leaves the product machine unchanged when no
expectation is pending. -/
theorem stepsOut_logMsg (m : String) (seen : List VolKey) (t : Nat)
    (ready ids : List String) (s9b : C9bState) :
    StepsOut deltaM
      (MState.mk (C1State.mk seen t none) none (C3State.mk ready none) ids
        C5State.free none C7State.free s9b C9LState.free)
      (logMsg m)
      (fun s2 r =>
        s2 = MState.mk (C1State.mk seen t none) none (C3State.mk ready none) ids
          C5State.free none C7State.free s9b C9LState.free ∧ r = Except.ok ()) := by
  rcases s9b with _ | err <;>
    simp [StepsOut, exec, deltaM, deltaC1, deltaC2, deltaC3, deltaC4, deltaC5, deltaC6,
      deltaC7, deltaC9b, deltaC9L, logMsg]

/-- The diagnostic-then-reraise handler of the cleanup sections: it logs the
provider message with a known prefix (clearing any pending logging
obligation for that very error) and re-raises. -/
theorem stepsOut_diagHandler (e : CloudError) (pfx : String)
    (hp : pfx ∈ diagnosticPrefixes) (seen : List VolKey) (t : Nat)
    (ready ids : List String) (s9b : C9bState) (s9L : C9LState)
    (h9L : s9L = C9LState.free ∨ s9L = C9LState.needLog e.message) :
    StepsOut deltaM
      (MState.mk (C1State.mk seen t none) none (C3State.mk ready none) ids
        C5State.free none C7State.free s9b s9L)
      (mBind (logMsg (pfx ++ e.message)) (fun _ => (throwCloud e : M Unit)))
      (fun s2 r =>
        s2 = MState.mk (C1State.mk seen t none) none (C3State.mk ready none) ids
          C5State.free none C7State.free s9b C9LState.free ∧
        r = Except.error (Err.cloud e)) := by
  rcases s9b with _ | err <;> rcases h9L with h | h <;> subst h <;>
    simp [StepsOut, exec, deltaM, deltaC1, deltaC2, deltaC3, deltaC4, deltaC5, deltaC6,
      deltaC7, deltaC9b, deltaC9L, mBind, logMsg, throwCloud,
      isDiagnosticFor_append e.message pfx hp]

/-- Decomposition of s2 back into the canonical shape used by the phase
lemmas, from the componentwise facts they provide. -/
theorem mstate_shape (s : MState) (t : Nat) (ids : List String)
    (h1t : s.s1.tier = t) (h1p : s.s1.pending = none) (h2 : s.s2 = none)
    (h3 : s.s3.pendingSrcVol = none) (h4 : s.s4 = ids) (h5 : s.s5 = C5State.free)
    (h6 : s.s6 = none) (h7 : s.s7 = C7State.free) (h9b : s.s9b = C9bState.free)
    (h9L : s.s9L = C9LState.free) :
    s = MState.mk (C1State.mk s.s1.seen t none) none (C3State.mk s.s3.ready none) ids
      C5State.free none C7State.free C9bState.free C9LState.free := by
  obtain ⟨⟨a1, a2, a3⟩, b, ⟨c1, c2⟩, d, e1, f1, g1, hh, ii⟩ := s
  simp_all

/-- The product machine accepts the two-volume cleanup loop. -/
theorem delete_volumes_loop_steps (env : Env) (v1 v2 : String) (seen : List VolKey)
    (ready ids : List String) :
    StepsOut deltaM
      (MState.mk (C1State.mk seen 0 none) none (C3State.mk ready none) ids
        C5State.free none C7State.free C9bState.free C9LState.free)
      (forEachId (delete_volume_iter env) [v1, v2])
      (fun s2 r =>
        s2.s1.tier = 0 ∧ s2.s1.pending = none ∧ s2.s2 = none ∧
        s2.s3.pendingSrcVol = none ∧ s2.s4 = ids ∧ s2.s5 = C5State.free ∧
        s2.s6 = none ∧ s2.s7 = C7State.free ∧ PostC9b r s2.s9b ∧ PostC9L r s2.s9L) := by
  rw [forEachId_cons]
  refine stepsOut_bind (delete_volume_iter_steps env v1 seen ready ids) ?_ ?_
  · intro a s2 hx2 hP
    obtain ⟨h1t, h1p, h2, h3, h4, h5, h6, h7, h9b, h9L⟩ := hP
    simp only [PostC9b] at h9b
    simp only [PostC9L] at h9L
    rw [mstate_shape s2 0 ids h1t h1p h2 h3 h4 h5 h6 h7 h9b h9L, forEachId_cons]
    refine stepsOut_bind (delete_volume_iter_steps env v2 _ _ _) ?_ ?_
    · intro a2 s3 hx3 hP2
      obtain ⟨g1t, g1p, g2, g3, g4, g5, g6, g7, g9b, g9L⟩ := hP2
      unfold StepsOut
      simp only [forEachId_nil, exec_nil]
      exact ⟨g1t, g1p, g2, g3, g4, g5, g6, g7, g9b, g9L⟩
    · intro e s3 hx3 hP2
      exact hP2
  · intro e s2 hx2 hP
    exact hP

/-- The product machine accepts the two-pool cleanup loop, entered at tier 0. -/
theorem delete_pools_loop_steps (env : Env) (p1 p2 : String) (seen : List VolKey)
    (ready ids : List String) :
    StepsOut deltaM
      (MState.mk (C1State.mk seen 0 none) none (C3State.mk ready none) ids
        C5State.free none C7State.free C9bState.free C9LState.free)
      (forEachId (delete_pool_iter env) [p1, p2])
      (fun s2 r =>
        s2.s1.tier = 1 ∧ s2.s1.pending = none ∧ s2.s2 = none ∧
        s2.s3.pendingSrcVol = none ∧ s2.s4 = ids ∧ s2.s5 = C5State.free ∧
        s2.s6 = none ∧ s2.s7 = C7State.free ∧ PostC9b r s2.s9b ∧ PostC9L r s2.s9L) := by
  rw [forEachId_cons]
  refine stepsOut_bind (delete_pool_iter_steps env p1 seen ready ids 0 (by decide)) ?_ ?_
  · intro a s2 hx2 hP
    obtain ⟨h1t, h1p, h2, h3, h4, h5, h6, h7, h9b, h9L⟩ := hP
    simp only [PostC9b] at h9b
    simp only [PostC9L] at h9L
    rw [mstate_shape s2 1 ids h1t h1p h2 h3 h4 h5 h6 h7 h9b h9L, forEachId_cons]
    refine stepsOut_bind (delete_pool_iter_steps env p2 _ _ _ 1 (by decide)) ?_ ?_
    · intro a2 s3 hx3 hP2
      obtain ⟨g1t, g1p, g2, g3, g4, g5, g6, g7, g9b, g9L⟩ := hP2
      unfold StepsOut
      simp only [forEachId_nil, exec_nil]
      exact ⟨g1t, g1p, g2, g3, g4, g5, g6, g7, g9b, g9L⟩
    · intro e s3 hx3 hP2
      exact hP2
  · intro e s2 hx2 hP
    exact hP

/-- The product machine accepts the two-account cleanup loop, entered at any
tier. -/
theorem delete_accounts_loop_steps (env : Env) (a1 a2 : String) (seen : List VolKey)
    (ready ids : List String) (t : Nat) :
    StepsOut deltaM
      (MState.mk (C1State.mk seen t none) none (C3State.mk ready none) ids
        C5State.free none C7State.free C9bState.free C9LState.free)
      (forEachId (delete_account_iter env) [a1, a2])
      (fun s2 r =>
        s2.s1.tier = 2 ∧ s2.s1.pending = none ∧ s2.s2 = none ∧
        s2.s3.pendingSrcVol = none ∧ s2.s4 = ids ∧ s2.s5 = C5State.free ∧
        s2.s6 = none ∧ s2.s7 = C7State.free ∧ PostC9b r s2.s9b ∧ PostC9L r s2.s9L) := by
  rw [forEachId_cons]
  refine stepsOut_bind (delete_account_iter_steps env a1 seen ready ids t) ?_ ?_
  · intro a s2 hx2 hP
    obtain ⟨h1t, h1p, h2, h3, h4, h5, h6, h7, h9b, h9L⟩ := hP
    simp only [PostC9b] at h9b
    simp only [PostC9L] at h9L
    rw [mstate_shape s2 2 ids h1t h1p h2 h3 h4 h5 h6 h7 h9b h9L, forEachId_cons]
    refine stepsOut_bind (delete_account_iter_steps env a2 _ _ _ 2) ?_ ?_
    · intro a2x s3 hx3 hP2
      obtain ⟨g1t, g1p, g2, g3, g4, g5, g6, g7, g9b, g9L⟩ := hP2
      unfold StepsOut
      simp only [forEachId_nil, exec_nil]
      exact ⟨g1t, g1p, g2, g3, g4, g5, g6, g7, g9b, g9L⟩
    · intro e s3 hx3 hP2
      exact hP2
  · intro e s2 hx2 hP
    exact hP

theorem delete_volumes_section_eq (env : Env) (c : Created) :
    delete_volumes_section env c =
      mBind (logMsg "Deleting Volumes...")
        (fun _ => mTryCloud
          (forEachId (delete_volume_iter env)
            [c.data_replication_volume.id, c.primary_volume.id])
          (fun ex => mBind
            (logMsg ("An error occurred while deleting volumes: " ++ ex.message))
            (fun _ => throwCloud ex))) := rfl

theorem delete_pools_section_eq (env : Env) (c : Created) :
    delete_pools_section env c =
      mBind (logMsg "Deleting Capacity Pools...")
        (fun _ => mTryCloud
          (forEachId (delete_pool_iter env)
            [c.primary_capacity_pool.id, c.secondary_capacity_pool.id])
          (fun ex => mBind
            (logMsg ("An error occurred while deleting capacity pools: " ++ ex.message))
            (fun _ => throwCloud ex))) := rfl

theorem delete_accounts_section_eq (env : Env) (c : Created) :
    delete_accounts_section env c =
      mBind (logMsg "Deleting Accounts...")
        (fun _ => mTryCloud
          (forEachId (delete_account_iter env)
            [c.primary_account.id, c.secondary_account.id])
          (fun ex => mBind
            (logMsg ("An error occurred while deleting accounts: " ++ ex.message))
            (fun _ => throwCloud ex))) := rfl

/-- The product machine accepts the volume cleanup section; its handler
writes the diagnostic, so the logging machine always ends free. -/
theorem delete_volumes_section_steps (env : Env) (c : Created) (seen : List VolKey)
    (ready ids : List String) :
    StepsOut deltaM
      (MState.mk (C1State.mk seen 0 none) none (C3State.mk ready none) ids
        C5State.free none C7State.free C9bState.free C9LState.free)
      (delete_volumes_section env c)
      (fun s2 r =>
        s2.s1.tier = 0 ∧ s2.s1.pending = none ∧ s2.s2 = none ∧
        s2.s3.pendingSrcVol = none ∧ s2.s4 = ids ∧ s2.s5 = C5State.free ∧
        s2.s6 = none ∧ s2.s7 = C7State.free ∧ PostC9b r s2.s9b ∧
        s2.s9L = C9LState.free) := by
  rw [delete_volumes_section_eq]
  refine stepsOut_bind (stepsOut_logMsg _ seen 0 ready ids C9bState.free) ?_ ?_
  · intro a s2 hx2 hP
    obtain ⟨hs, -⟩ := hP
    subst hs
    refine stepsOut_mTry (delete_volumes_loop_steps env _ _ seen ready ids) ?_ ?_ ?_
    · intro a2 s3 hx3 hP2
      obtain ⟨g1t, g1p, g2, g3, g4, g5, g6, g7, g9b, g9L⟩ := hP2
      simp only [PostC9L] at g9L
      exact ⟨g1t, g1p, g2, g3, g4, g5, g6, g7, g9b, g9L⟩
    · intro rid s3 hx3 hP2
      obtain ⟨g1t, g1p, g2, g3, g4, g5, g6, g7, g9b, g9L⟩ := hP2
      simp only [PostC9L] at g9L
      exact ⟨g1t, g1p, g2, g3, g4, g5, g6, g7, g9b, g9L⟩
    · intro e s3 hx3 hP2
      obtain ⟨g1t, g1p, g2, g3, g4, g5, g6, g7, g9b, g9L⟩ := hP2
      simp only [PostC9b] at g9b
      simp only [PostC9L] at g9L
      have hs3 : s3 = MState.mk (C1State.mk s3.s1.seen 0 none) none
          (C3State.mk s3.s3.ready none) ids C5State.free none C7State.free
          (C9bState.aborting e) s3.s9L := by
        obtain ⟨⟨x1, x2, x3⟩, b, ⟨y1, y2⟩, d, e1, f1, g11, hh, ii⟩ := s3
        simp_all
      rw [hs3]
      refine stepsOut_mono
        (stepsOut_diagHandler e "An error occurred while deleting volumes: "
          (by decide) s3.s1.seen 0 s3.s3.ready ids (C9bState.aborting e) s3.s9L g9L) ?_
      intro s4 hP3
      obtain ⟨hs4, hr⟩ := hP3
      subst hs4
      rw [hr]
      simp [PostC9b]
  · intro e s2 hx2 hP
    obtain ⟨-, hr⟩ := hP
    simp at hr

/-- The product machine accepts the pool cleanup section. -/
theorem delete_pools_section_steps (env : Env) (c : Created) (seen : List VolKey)
    (ready ids : List String) :
    StepsOut deltaM
      (MState.mk (C1State.mk seen 0 none) none (C3State.mk ready none) ids
        C5State.free none C7State.free C9bState.free C9LState.free)
      (delete_pools_section env c)
      (fun s2 r =>
        s2.s1.tier = 1 ∧ s2.s1.pending = none ∧ s2.s2 = none ∧
        s2.s3.pendingSrcVol = none ∧ s2.s4 = ids ∧ s2.s5 = C5State.free ∧
        s2.s6 = none ∧ s2.s7 = C7State.free ∧ PostC9b r s2.s9b ∧
        s2.s9L = C9LState.free) := by
  rw [delete_pools_section_eq]
  refine stepsOut_bind (stepsOut_logMsg _ seen 0 ready ids C9bState.free) ?_ ?_
  · intro a s2 hx2 hP
    obtain ⟨hs, -⟩ := hP
    subst hs
    refine stepsOut_mTry (delete_pools_loop_steps env _ _ seen ready ids) ?_ ?_ ?_
    · intro a2 s3 hx3 hP2
      obtain ⟨g1t, g1p, g2, g3, g4, g5, g6, g7, g9b, g9L⟩ := hP2
      simp only [PostC9L] at g9L
      exact ⟨g1t, g1p, g2, g3, g4, g5, g6, g7, g9b, g9L⟩
    · intro rid s3 hx3 hP2
      obtain ⟨g1t, g1p, g2, g3, g4, g5, g6, g7, g9b, g9L⟩ := hP2
      simp only [PostC9L] at g9L
      exact ⟨g1t, g1p, g2, g3, g4, g5, g6, g7, g9b, g9L⟩
    · intro e s3 hx3 hP2
      obtain ⟨g1t, g1p, g2, g3, g4, g5, g6, g7, g9b, g9L⟩ := hP2
      simp only [PostC9b] at g9b
      simp only [PostC9L] at g9L
      have hs3 : s3 = MState.mk (C1State.mk s3.s1.seen 1 none) none
          (C3State.mk s3.s3.ready none) ids C5State.free none C7State.free
          (C9bState.aborting e) s3.s9L := by
        obtain ⟨⟨x1, x2, x3⟩, b, ⟨y1, y2⟩, d, e1, f1, g11, hh, ii⟩ := s3
        simp_all
      rw [hs3]
      refine stepsOut_mono
        (stepsOut_diagHandler e "An error occurred while deleting capacity pools: "
          (by decide) s3.s1.seen 1 s3.s3.ready ids (C9bState.aborting e) s3.s9L g9L) ?_
      intro s4 hP3
      obtain ⟨hs4, hr⟩ := hP3
      subst hs4
      rw [hr]
      simp [PostC9b]
  · intro e s2 hx2 hP
    obtain ⟨-, hr⟩ := hP
    simp at hr

/-- The product machine accepts the account cleanup section, entered at any
tier. -/
theorem delete_accounts_section_steps (env : Env) (c : Created) (seen : List VolKey)
    (ready ids : List String) (t : Nat) :
    StepsOut deltaM
      (MState.mk (C1State.mk seen t none) none (C3State.mk ready none) ids
        C5State.free none C7State.free C9bState.free C9LState.free)
      (delete_accounts_section env c)
      (fun s2 r =>
        s2.s1.tier = 2 ∧ s2.s1.pending = none ∧ s2.s2 = none ∧
        s2.s3.pendingSrcVol = none ∧ s2.s4 = ids ∧ s2.s5 = C5State.free ∧
        s2.s6 = none ∧ s2.s7 = C7State.free ∧ PostC9b r s2.s9b ∧
        s2.s9L = C9LState.free) := by
  rw [delete_accounts_section_eq]
  refine stepsOut_bind (stepsOut_logMsg _ seen t ready ids C9bState.free) ?_ ?_
  · intro a s2 hx2 hP
    obtain ⟨hs, -⟩ := hP
    subst hs
    refine stepsOut_mTry (delete_accounts_loop_steps env _ _ seen ready ids t) ?_ ?_ ?_
    · intro a2 s3 hx3 hP2
      obtain ⟨g1t, g1p, g2, g3, g4, g5, g6, g7, g9b, g9L⟩ := hP2
      simp only [PostC9L] at g9L
      exact ⟨g1t, g1p, g2, g3, g4, g5, g6, g7, g9b, g9L⟩
    · intro rid s3 hx3 hP2
      obtain ⟨g1t, g1p, g2, g3, g4, g5, g6, g7, g9b, g9L⟩ := hP2
      simp only [PostC9L] at g9L
      exact ⟨g1t, g1p, g2, g3, g4, g5, g6, g7, g9b, g9L⟩
    · intro e s3 hx3 hP2
      obtain ⟨g1t, g1p, g2, g3, g4, g5, g6, g7, g9b, g9L⟩ := hP2
      simp only [PostC9b] at g9b
      simp only [PostC9L] at g9L
      have hs3 : s3 = MState.mk (C1State.mk s3.s1.seen 2 none) none
          (C3State.mk s3.s3.ready none) ids C5State.free none C7State.free
          (C9bState.aborting e) s3.s9L := by
        obtain ⟨⟨x1, x2, x3⟩, b, ⟨y1, y2⟩, d, e1, f1, g11, hh, ii⟩ := s3
        simp_all
      rw [hs3]
      refine stepsOut_mono
        (stepsOut_diagHandler e "An error occurred while deleting accounts: "
          (by decide) s3.s1.seen 2 s3.s3.ready ids (C9bState.aborting e) s3.s9L g9L) ?_
      intro s4 hP3
      obtain ⟨hs4, hr⟩ := hP3
      subst hs4
      rw [hr]
      simp [PostC9b]
  · intro e s2 hx2 hP
    obtain ⟨-, hr⟩ := hP
    simp at hr

theorem cleanup_phase_eq (env : Env) (c : Created) :
    cleanup_phase env c =
      mBind (logMsg "\tCleaning up resources")
        (fun _ => mBind (delete_volumes_section env c)
          (fun _ => mBind (delete_pools_section env c)
            (fun _ => delete_accounts_section env c))) := rfl

/-- The product machine accepts the whole cleanup phase. -/
theorem cleanup_phase_steps (env : Env) (c : Created) (seen : List VolKey)
    (ready ids : List String) :
    StepsOut deltaM
      (MState.mk (C1State.mk seen 0 none) none (C3State.mk ready none) ids
        C5State.free none C7State.free C9bState.free C9LState.free)
      (cleanup_phase env c)
      (fun s2 r =>
        s2.s1.pending = none ∧ s2.s2 = none ∧ s2.s3.pendingSrcVol = none ∧
        s2.s5 = C5State.free ∧ s2.s6 = none ∧ s2.s7 = C7State.free ∧
        PostC9b r s2.s9b ∧ s2.s9L = C9LState.free) := by
  rw [cleanup_phase_eq]
  refine stepsOut_bind (stepsOut_logMsg _ seen 0 ready ids C9bState.free) ?_ ?_
  · intro a s2 hx2 hP
    obtain ⟨hs, -⟩ := hP
    subst hs
    refine stepsOut_bind (delete_volumes_section_steps env c seen ready ids) ?_ ?_
    · intro a2 s3 hx3 hP2
      obtain ⟨g1t, g1p, g2, g3, g4, g5, g6, g7, g9b, g9L⟩ := hP2
      simp only [PostC9b] at g9b
      rw [mstate_shape s3 0 ids g1t g1p g2 g3 g4 g5 g6 g7 g9b g9L]
      refine stepsOut_bind (delete_pools_section_steps env c _ _ _) ?_ ?_
      · intro a3 s4 hx4 hP3
        obtain ⟨k1t, k1p, k2, k3, k4, k5, k6, k7, k9b, k9L⟩ := hP3
        simp only [PostC9b] at k9b
        rw [mstate_shape s4 1 ids k1t k1p k2 k3 k4 k5 k6 k7 k9b k9L]
        refine stepsOut_mono (delete_accounts_section_steps env c _ _ _ 1) ?_
        intro s5 hP4
        obtain ⟨m1t, m1p, m2, m3, m4, m5, m6, m7, m9b, m9L⟩ := hP4
        exact ⟨m1p, m2, m3, m5, m6, m7, m9b, m9L⟩
      · intro e s4 hx4 hP3
        obtain ⟨m1t, m1p, m2, m3, m4, m5, m6, m7, m9b, m9L⟩ := hP3
        exact ⟨m1p, m2, m3, m5, m6, m7, m9b, m9L⟩
    · intro e s3 hx3 hP2
      obtain ⟨m1t, m1p, m2, m3, m4, m5, m6, m7, m9b, m9L⟩ := hP2
      exact ⟨m1p, m2, m3, m5, m6, m7, m9b, m9L⟩
  · intro e s2 hx2 hP
    obtain ⟨-, hr⟩ := hP
    simp at hr

theorem run_example_eq (env : Env) (cu : Bool) :
    run_example env cu =
      mBind (provision_phase env)
        (fun c =>
          if cu then
            mBind (cleanup_phase env c)
              (fun _ =>
                logMsg "ANF Cross-Region Replication has completed successfully")
          else
            mBind (([], Except.ok ()) : M Unit)
              (fun _ =>
                logMsg "ANF Cross-Region Replication has completed successfully")) := rfl

/-- The product machine accepts every run of the script, with or without
cleanup: every pending expectation is discharged, the logging machine ends
free, and the abort machine state matches the run outcome. -/
theorem run_example_steps (env : Env) (cu : Bool) :
    StepsOut deltaM initM (run_example env cu)
      (fun s2 r =>
        s2.s1.pending = none ∧ s2.s2 = none ∧ s2.s3.pendingSrcVol = none ∧
        s2.s5 = C5State.free ∧ s2.s6 = none ∧ s2.s7 = C7State.free ∧
        s2.s9L = C9LState.free ∧ PostC9b r s2.s9b) := by
  rw [run_example_eq]
  refine stepsOut_bind (provision_steps env) ?_ ?_
  · intro c s2 hx2 hP
    obtain ⟨h1, h2, h3, h5, h6, h7, h9L, h9b⟩ := hP
    simp only [PostC9b] at h9b
    have h1t : s2.s1.tier = 0 := by rw [h1]
    have h1p : s2.s1.pending = none := by rw [h1]
    have hsh := mstate_shape s2 0 s2.s4 h1t h1p h2 h3 rfl h5 h6 h7 h9b h9L
    cases cu with
    | true =>
        rw [if_pos rfl, hsh]
        refine stepsOut_bind (cleanup_phase_steps env c _ _ _) ?_ ?_
        · intro a3 s4 hx4 hP3
          obtain ⟨k1p, k2, k3, k5, k6, k7, k9b, k9L⟩ := hP3
          simp only [PostC9b] at k9b
          have hsh4 := mstate_shape s4 s4.s1.tier s4.s4 rfl k1p k2 k3 rfl k5 k6 k7 k9b k9L
          rw [hsh4]
          refine stepsOut_mono
            (stepsOut_logMsg _ s4.s1.seen s4.s1.tier s4.s3.ready s4.s4 C9bState.free) ?_
          intro s5 hP5
          obtain ⟨hs5, hr5⟩ := hP5
          subst hs5
          rw [hr5]
          simp [PostC9b]
        · intro e s4 hx4 hP3
          obtain ⟨k1p, k2, k3, k5, k6, k7, k9b, k9L⟩ := hP3
          exact ⟨k1p, k2, k3, k5, k6, k7, k9L, k9b⟩
    | false =>
        rw [if_neg (by simp), hsh]
        have hx : mBind (([], Except.ok ()) : M Unit)
            (fun _ =>
              logMsg "ANF Cross-Region Replication has completed successfully") =
            logMsg "ANF Cross-Region Replication has completed successfully" := rfl
        rw [hx]
        refine stepsOut_mono
          (stepsOut_logMsg _ s2.s1.seen 0 s2.s3.ready s2.s4 C9bState.free) ?_
        intro s5 hP5
        obtain ⟨hs5, hr5⟩ := hP5
        subst hs5
        rw [hr5]
        simp [PostC9b]
  · intro e s2 hx2 hP
    obtain ⟨h1, h2, h3, h5, h6, h7, h9L, h9b⟩ := hP
    have h1p : s2.s1.pending = none := by rw [h1]
    cases e with
    | cloud ce =>
        simp only [PostC9b] at h9b ⊢
        exact ⟨h1p, h2, h3, h5, h6, h7, h9L, h9b⟩
    | timeout rid =>
        simp only [PostC9b] at h9b ⊢
        exact ⟨h1p, h2, h3, h5, h6, h7, h9L, h9b⟩

/-- Projection of the product-machine run to the individual claim machines:
every claim machine accepts every run of the script, and the final states
satisfy the collected facts. -/
theorem run_example_machines (env : Env) (cu : Bool) :
    ∃ s2 : MState,
      exec deltaC1 (C1State.mk [] 0 none) (run_example env cu).1 = some s2.s1 ∧
      exec deltaC2 none (run_example env cu).1 = some s2.s2 ∧
      exec deltaC3 (C3State.mk [] none) (run_example env cu).1 = some s2.s3 ∧
      exec deltaC4 [] (run_example env cu).1 = some s2.s4 ∧
      exec deltaC5 C5State.free (run_example env cu).1 = some s2.s5 ∧
      exec deltaC6 none (run_example env cu).1 = some s2.s6 ∧
      exec deltaC7 C7State.free (run_example env cu).1 = some s2.s7 ∧
      exec deltaC9b C9bState.free (run_example env cu).1 = some s2.s9b ∧
      exec deltaC9L C9LState.free (run_example env cu).1 = some s2.s9L ∧
      s2.s1.pending = none ∧ s2.s2 = none ∧ s2.s3.pendingSrcVol = none ∧
      s2.s5 = C5State.free ∧ s2.s6 = none ∧ s2.s7 = C7State.free ∧
      s2.s9L = C9LState.free ∧ PostC9b (run_example env cu).2 s2.s9b := by
  have h := run_example_steps env cu
  unfold StepsOut at h
  rcases hex : exec deltaM initM (run_example env cu).1 with _ | s2
  · simp only [hex] at h
  · simp only [hex] at h
    obtain ⟨p1, p2, p3, p4, p5, p6, p7, p8, p9⟩ := execM_proj _ _ _ hex
    exact ⟨s2, p1, p2, p3, p4, p5, p6, p7, p8, p9, h⟩

/-- The volume body create_volume builds, as a function of the caller
supplied parameters: only size, name, subnet, location and data protection
vary; service level, protocols and export policy are fixed. -/
def volume_body_of (volume_name : String) (volume_size : Nat)
    (subnet_id location : String)
    (data_protection : Option VolumePropertiesDataProtection) : Volume :=
  Volume.mk volume_size volume_name location "Standard" subnet_id ["NFSv4.1"]
    (VolumePropertiesExportPolicy.mk
      [ExportPolicyRule.mk "0.0.0.0/0" false false true 1 false true])
    data_protection

def listPrefix : List Char → List Char → Bool
  | [], _ => true
  | _ :: _, [] => false
  | a :: as, b :: bs => a == b && listPrefix as bs

/-- Suffix test on strings by comparing reversed character lists. -/
def strEndsWith (s suf : String) : Bool := listPrefix suf.data.reverse s.data.reverse

/-- Environment in which only the replication authorization call fails. -/
def authErrEnv : Env :=
  { okEnv with respond := fun c =>
      match c with
      | ApiCall.authorizeReplication _ _ _ _ _ =>
          Except.error (Err.cloud (CloudError.mk 500 "boom"))
      | _ => okEnv.respond c }

/-- Environment in which every replication-status query reports 404. -/
def notFoundEnv : Env :=
  { okEnv with respond := fun c =>
      match c with
      | ApiCall.replicationStatus _ _ _ _ =>
          Except.error (Err.cloud (CloudError.mk 404 "Not found"))
      | _ => okEnv.respond c }

def isAuthorizeCloudErrorEvent : Event → Bool
  | Event.call (ApiCall.authorizeReplication _ _ _ _ _) (Except.error (Err.cloud _)) => true
  | _ => false

def isBelowMinVolumeCreateEvent : Event → Bool
  | Event.call (ApiCall.volumesCreateOrUpdate b _ _ _ _) _ => b.usage_threshold == 1
  | _ => false

/-- C1: with cleanup enabled, teardown deletes resources in strict
dependency order.  The deltaC1 machine rejects any trace in which a volume
delete is not preceded by that volume's replication-status check (the first
step of its replication teardown), or a volume delete appears after a pool
delete, or a pool delete after an account delete, or a successful delete is
not awaited by its absence poll before the next deletion is issued; its
acceptance with no pending poll on every run of run_example with the
cleanup flag on is the claim. -/
theorem C1_cleanup_dependency_order (env : Env) :
    ∃ s2 : C1State,
      exec deltaC1 (C1State.mk [] 0 none) (run_example env true).1 = some s2 ∧
      s2.pending = none := by
  obtain ⟨s2, p1, p2, p3, p4, p5, p6, p7, p8, p9, q1, q⟩ := run_example_machines env true
  exact ⟨s2.s1, p1, q1⟩

theorem C1_cleanup_dependency_order_witness :
    ∃ s2 : C1State,
      exec deltaC1 (C1State.mk [] 0 none) (run_example okEnv true).1 = some s2 ∧
      s2.pending = none :=
  C1_cleanup_dependency_order okEnv

/-- C2: when the replication-status query of a volume fails with a 404
CloudError, the very next event is that volume's own delete call: no
replication delete, no replication absence wait, no diagnostic, no abort in
between.  The deltaC2 machine rejects any other continuation after a 404
status event; it accepts every run of run_example with cleanup on, ending
with no pending obligation. -/
theorem C2_replication_not_found_noop (env : Env) :
    exec deltaC2 none (run_example env true).1 = some none := by
  obtain ⟨s2, p1, p2, p3, p4, p5, p6, p7, p8, p9, q1, q2, q⟩ := run_example_machines env true
  rw [q2] at p2
  exact p2

theorem C2_replication_not_found_noop_witness :
    exec deltaC2 none (run_example notFoundEnv true).1 = some none :=
  C2_replication_not_found_noop notFoundEnv

/-- C3: the replication authorization call is issued only after the
destination volume has been polled to ready (its id must be among the
successfully awaited resource ids), and a successful authorization is
immediately followed by the replication-mode wait on the source volume.
The deltaC3 machine rejects traces violating either part; it accepts every
run of run_example, with no wait left pending. -/
theorem C3_authorize_after_destination_ready (env : Env) (cu : Bool) :
    ∃ s2 : C3State,
      exec deltaC3 (C3State.mk [] none) (run_example env cu).1 = some s2 ∧
      s2.pendingSrcVol = none := by
  obtain ⟨s2, p1, p2, p3, p4, p5, p6, p7, p8, p9, q1, q2, q3, q⟩ :=
    run_example_machines env cu
  exact ⟨s2.s3, p3, q3⟩

theorem C3_authorize_after_destination_ready_witness :
    ∃ s2 : C3State,
      exec deltaC3 (C3State.mk [] none) (run_example okEnv true).1 = some s2 ∧
      s2.pendingSrcVol = none :=
  C3_authorize_after_destination_ready okEnv true

/-- C4: every volume body carrying a data_protection object is the
secondary volume's, with endpoint type dst and a remote volume id equal to
the id of the already-created primary volume; the primary volume body
carries no data_protection and the secondary volume body always carries
one.  The deltaC4 machine rejects any volume-create event violating this;
it accepts every run of run_example. -/
theorem C4_replication_volume_bodies (env : Env) (cu : Bool) :
    ∃ ids : List String, exec deltaC4 [] (run_example env cu).1 = some ids := by
  obtain ⟨s2, p1, p2, p3, p4, q⟩ := run_example_machines env cu
  exact ⟨s2.s4, p4⟩

theorem C4_replication_volume_bodies_witness :
    ∃ ids : List String, exec deltaC4 [] (run_example okEnv true).1 = some ids :=
  C4_replication_volume_bodies okEnv true

/-- C5: inside the teardown of one volume, a successful replication-status
check is followed, in this exact order with nothing in between, by the
replication delete for the same volume, the replication absence wait, and
the volume's own delete; a failing step either aborts the run or is the
swallowed 404 after which the volume delete still follows at once.  The
deltaC5 machine rejects any skipped or reordered step; it accepts every
run of run_example with cleanup on, ending free. -/
theorem C5_replication_teardown_sequence (env : Env) :
    exec deltaC5 C5State.free (run_example env true).1 = some C5State.free := by
  obtain ⟨s2, p1, p2, p3, p4, p5, p6, p7, p8, p9, q1, q2, q3, q5, q⟩ :=
    run_example_machines env true
  rw [q5] at p5
  exact p5

theorem C5_replication_teardown_sequence_witness :
    exec deltaC5 C5State.free (run_example okEnv true).1 = some C5State.free :=
  C5_replication_teardown_sequence okEnv

/-- C6: every successful delete call in teardown (volume, pool or account)
is immediately followed by the absence poll on the id of the deleted
resource, before anything else happens.  The deltaC6 machine rejects any
other event while a poll is due; it accepts every run of run_example with
cleanup on, with no poll left pending. -/
theorem C6_delete_followed_by_absence_poll (env : Env) :
    exec deltaC6 none (run_example env true).1 = some none := by
  obtain ⟨s2, p1, p2, p3, p4, p5, p6, p7, p8, p9, q1, q2, q3, q5, q6, q⟩ :=
    run_example_machines env true
  rw [q6] at p6
  exact p6

theorem C6_delete_followed_by_absence_poll_witness :
    exec deltaC6 none (run_example okEnv true).1 = some none :=
  C6_delete_followed_by_absence_poll okEnv

set_option maxRecDepth 100000 in
/-- C7, counterexample: the claim says every creation step (account, pool,
volume) is followed by a ReadinessWaiter poll on the created resource
before the dependent child is created.  The deltaC7claim machine encodes
exactly that and rejects the run on the all-success environment: the
account create is followed directly by the pool create with no waiter poll
in between. -/
theorem C7_counterexample :
    exec deltaC7claim none (run_example okEnv false).1 = none := by decide

/-- C7, amended: every creation call is blocking, and only the volume
creations are followed by an explicit ReadinessWaiter poll before the run
proceeds; after a successful account create the next provider interaction
is directly the pool create under that account, after a successful pool
create directly the volume create in that pool, and only after a
successful volume create is the next interaction the waiter poll on that
volume id.  The deltaC7 machine rejects any other continuation; it accepts
every run of run_example. -/
theorem C7_amended_waiter_only_after_volumes (env : Env) (cu : Bool) :
    exec deltaC7 C7State.free (run_example env cu).1 = some C7State.free := by
  obtain ⟨s2, p1, p2, p3, p4, p5, p6, p7, p8, p9, q1, q2, q3, q5, q6, q7, q⟩ :=
    run_example_machines env cu
  rw [q7] at p7
  exact p7

theorem C7_amended_waiter_only_after_volumes_witness :
    exec deltaC7 C7State.free (run_example okEnv true).1 = some C7State.free :=
  C7_amended_waiter_only_after_volumes okEnv true

set_option maxRecDepth 100000 in
/-- C8, counterexample: the claim says volume-creation requests below
107374182400 bytes are rejected by local validation before any provider
call.  With size 1 (below the minimum) create_volume still issues the
provider call carrying that size: nothing is validated locally. -/
theorem C8_counterexample :
    1 < 107374182400 ∧
    ((create_volume okEnv "rg" "acct" "pool" "vol" 1 "subnet" "loc" none
        none).1.any isBelowMinVolumeCreateEvent) = true := by decide

/-- C8, amended: create_volume performs no local size validation: for every
size, including sizes below 107374182400 bytes, it issues exactly one
provider call whose body carries the given size unchanged; requests at
exactly 107374182400 bytes (the script constant VOLUME_SIZE, used on the
4398046511104-byte CAPACITY_POOL_SIZE pool) are passed to the provider the
same way. -/
theorem C8_amended_no_local_size_validation (env : Env)
    (rg acct pool vol : String) (size : Nat) (subnet loc : String)
    (dp : Option VolumePropertiesDataProtection)
    (tags : Option (List (String × String))) :
    create_volume env rg acct pool vol size subnet loc dp tags =
      ([Event.call
          (ApiCall.volumesCreateOrUpdate (volume_body_of vol size subnet loc dp)
            rg acct pool vol)
          (env.respond (ApiCall.volumesCreateOrUpdate
            (volume_body_of vol size subnet loc dp) rg acct pool vol))],
        env.respond (ApiCall.volumesCreateOrUpdate
          (volume_body_of vol size subnet loc dp) rg acct pool vol)) ∧
    VOLUME_SIZE = 107374182400 ∧ CAPACITY_POOL_SIZE = 4398046511104 :=
  ⟨rfl, rfl, rfl⟩

set_option maxRecDepth 100000 in
/-- C9, counterexample: the claim says every provider error raised by a
create, delete, or authorize call is logged with the provider's message and
re-raised.  In the environment where the authorize call fails with message
boom, the run ends with that error but no log line carries the message:
the authorize call sits outside every try/except and gets no diagnostic. -/
theorem C9_counterexample :
    ((run_example authErrEnv false).1.any isAuthorizeCloudErrorEvent = true) ∧
    ((run_example authErrEnv false).1.all (fun e =>
      match e with
      | Event.log m => !(strEndsWith m "boom")
      | _ => true) = true) ∧
    (run_example authErrEnv false).2 =
      Except.error (Err.cloud (CloudError.mk 500 "boom")) := by decide

/-- C9, amended: every CloudError on a create or delete call that is not a
404 inside the teardown replication block is followed by a diagnostic log
line carrying the provider message before any further provider interaction
(deltaC9L); and any CloudError that is not a swallowed 404 from the
replication block (status check, replication delete, or replication
absence wait) puts the run into an aborting state in which only log lines
follow, the run result being exactly that error -- authorize errors abort
this way but without a diagnostic (deltaC9b). -/
theorem C9_amended_error_logging_and_abort (env : Env) (cu : Bool) :
    exec deltaC9L C9LState.free (run_example env cu).1 = some C9LState.free ∧
    (exec deltaC9b C9bState.free (run_example env cu).1 = some C9bState.free ∨
      ∃ e : CloudError,
        exec deltaC9b C9bState.free (run_example env cu).1 =
          some (C9bState.aborting e) ∧
        (run_example env cu).2 = Except.error (Err.cloud e)) := by
  obtain ⟨s2, p1, p2, p3, p4, p5, p6, p7, p8, p9, q1, q2, q3, q5, q6, q7, q9L, q9b⟩ :=
    run_example_machines env cu
  rw [q9L] at p9
  refine ⟨p9, ?_⟩
  rcases hr : (run_example env cu).2 with e | a
  · cases e with
    | cloud ce =>
        rw [hr] at q9b
        simp only [PostC9b] at q9b
        rw [q9b] at p8
        exact Or.inr ⟨ce, p8, rfl⟩
    | timeout rid =>
        rw [hr] at q9b
        simp only [PostC9b] at q9b
        rw [q9b] at p8
        exact Or.inl p8
  · rw [hr] at q9b
    simp only [PostC9b] at q9b
    rw [q9b] at p8
    exact Or.inl p8

theorem C9_amended_error_logging_and_abort_witness :
    exec deltaC9L C9LState.free (run_example authErrEnv true).1 = some C9LState.free ∧
    (exec deltaC9b C9bState.free (run_example authErrEnv true).1 = some C9bState.free ∨
      ∃ e : CloudError,
        exec deltaC9b C9bState.free (run_example authErrEnv true).1 =
          some (C9bState.aborting e) ∧
        (run_example authErrEnv true).2 = Except.error (Err.cloud e)) :=
  C9_amended_error_logging_and_abort authErrEnv true

/-- C10: create_capacity_pool always issues its provider call with service
level Standard, and create_volume always issues its call with service level
Standard, protocol NFSv4.1 only, and the single 0.0.0.0/0 read-write
NFSv4.1 export rule, whatever arguments the caller supplies: neither
function has a parameter that can change these fields. -/
theorem C10_fixed_service_level_protocol_export (env : Env)
    (rg acct pool : String) (size : Nat) (loc : String)
    (tags : Option (List (String × String)))
    (rg2 acct2 pool2 vol2 : String) (size2 : Nat) (subnet2 loc2 : String)
    (dp : Option VolumePropertiesDataProtection)
    (tags2 : Option (List (String × String))) :
    (create_capacity_pool env rg acct pool size loc tags =
      ([Event.call
          (ApiCall.poolsCreateOrUpdate (CapacityPool.mk loc "Standard" size)
            rg acct pool)
          (env.respond (ApiCall.poolsCreateOrUpdate
            (CapacityPool.mk loc "Standard" size) rg acct pool))],
        env.respond (ApiCall.poolsCreateOrUpdate
          (CapacityPool.mk loc "Standard" size) rg acct pool))) ∧
    (create_volume env rg2 acct2 pool2 vol2 size2 subnet2 loc2 dp tags2 =
      ([Event.call
          (ApiCall.volumesCreateOrUpdate (volume_body_of vol2 size2 subnet2 loc2 dp)
            rg2 acct2 pool2 vol2)
          (env.respond (ApiCall.volumesCreateOrUpdate
            (volume_body_of vol2 size2 subnet2 loc2 dp) rg2 acct2 pool2 vol2))],
        env.respond (ApiCall.volumesCreateOrUpdate
          (volume_body_of vol2 size2 subnet2 loc2 dp) rg2 acct2 pool2 vol2))) ∧
    (volume_body_of vol2 size2 subnet2 loc2 dp).service_level = "Standard" ∧
    (volume_body_of vol2 size2 subnet2 loc2 dp).protocol_types = ["NFSv4.1"] ∧
    (volume_body_of vol2 size2 subnet2 loc2 dp).export_policy =
      VolumePropertiesExportPolicy.mk
        [ExportPolicyRule.mk "0.0.0.0/0" false false true 1 false true] :=
  ⟨rfl, rfl, rfl, rfl, rfl⟩

theorem C8_amended_no_local_size_validation_witness :
    create_volume okEnv "rg" "acct" "pool" "vol" 1 "subnet" "loc" none none =
      ([Event.call
          (ApiCall.volumesCreateOrUpdate (volume_body_of "vol" 1 "subnet" "loc" none)
            "rg" "acct" "pool" "vol")
          (okEnv.respond (ApiCall.volumesCreateOrUpdate
            (volume_body_of "vol" 1 "subnet" "loc" none) "rg" "acct" "pool" "vol"))],
        okEnv.respond (ApiCall.volumesCreateOrUpdate
          (volume_body_of "vol" 1 "subnet" "loc" none) "rg" "acct" "pool" "vol")) ∧
    VOLUME_SIZE = 107374182400 ∧ CAPACITY_POOL_SIZE = 4398046511104 :=
  C8_amended_no_local_size_validation okEnv "rg" "acct" "pool" "vol" 1 "subnet" "loc"
    none none

theorem C10_fixed_service_level_protocol_export_witness :
    (create_capacity_pool okEnv "rg" "acct" "pool" 4398046511104 "loc" none =
      ([Event.call
          (ApiCall.poolsCreateOrUpdate (CapacityPool.mk "loc" "Standard" 4398046511104)
            "rg" "acct" "pool")
          (okEnv.respond (ApiCall.poolsCreateOrUpdate
            (CapacityPool.mk "loc" "Standard" 4398046511104) "rg" "acct" "pool"))],
        okEnv.respond (ApiCall.poolsCreateOrUpdate
          (CapacityPool.mk "loc" "Standard" 4398046511104) "rg" "acct" "pool"))) ∧
    (create_volume okEnv "rg2" "acct2" "pool2" "vol2" 107374182400 "subnet2" "loc2"
        none none =
      ([Event.call
          (ApiCall.volumesCreateOrUpdate
            (volume_body_of "vol2" 107374182400 "subnet2" "loc2" none)
            "rg2" "acct2" "pool2" "vol2")
          (okEnv.respond (ApiCall.volumesCreateOrUpdate
            (volume_body_of "vol2" 107374182400 "subnet2" "loc2" none)
            "rg2" "acct2" "pool2" "vol2"))],
        okEnv.respond (ApiCall.volumesCreateOrUpdate
          (volume_body_of "vol2" 107374182400 "subnet2" "loc2" none)
          "rg2" "acct2" "pool2" "vol2"))) ∧
    (volume_body_of "vol2" 107374182400 "subnet2" "loc2" none).service_level =
      "Standard" ∧
    (volume_body_of "vol2" 107374182400 "subnet2" "loc2" none).protocol_types =
      ["NFSv4.1"] ∧
    (volume_body_of "vol2" 107374182400 "subnet2" "loc2" none).export_policy =
      VolumePropertiesExportPolicy.mk
        [ExportPolicyRule.mk "0.0.0.0/0" false false true 1 false true] :=
  C10_fixed_service_level_protocol_export okEnv "rg" "acct" "pool" 4398046511104 "loc"
    none "rg2" "acct2" "pool2" "vol2" 107374182400 "subnet2" "loc2" none none
